import Mathlib

/-!
# CuckySonic software renderer: render queue, clipping, palette and pacing

A shallow embedding of `src/Render.cpp`, with the camera of `src/Camera.cpp`
and the axis reading of `src/Input.cpp`.

Modelling conventions.

* C `int` values are Lean `Int`. Signed overflow is undefined in C++, so the
  model describes the executions in which no `int` operation overflows.
* Pointers are natural numbers (`Ptr`); a nullable pointer is `Option Ptr`.
* A layer of the render queue is a singly linked list of `RENDERQUEUE`
  nodes. It is represented by the Lean list of its entries in link order, the
  head of the linked list being the head of the Lean list. The destructor of
  `TEXTURE`, which frees nodes while it walks them, is modelled at the level
  of nodes and pointers (`QueueMem`).
-/

namespace CuckySonic

/-- Machine address. -/
abbrev Ptr := Nat

/-- The SDL rectangle: four C ints. -/
structure SDL_Rect where
  x : Int
  y : Int
  w : Int
  h : Int
deriving DecidableEq, Repr

/-- A render queue entry without its link. The two constructors are the two
values of the `type` tag (RENDERQUEUE_SOLID, RENDERQUEUE_TEXTURE) together with
the member of the union that the tag selects. `colour`, `palette` and
`texture` are non-owning pointers. -/
inductive RENDERQUEUE where
  | solid (dest : SDL_Rect) (colour : Ptr)
  | texture (dest : SDL_Rect) (srcX srcY : Int) (palette : Ptr) (texture : Ptr)
      (xFlip yFlip : Bool)
deriving DecidableEq, Repr

/-- The destination rectangle of an entry. -/
def RENDERQUEUE.dest : RENDERQUEUE → SDL_Rect
  | .solid d _ => d
  | .texture d _ _ _ _ _ _ => d

/-- The test of the destructor: type == RENDERQUEUE_TEXTURE and
texture.texture == t. -/
def RENDERQUEUE.references (e : RENDERQUEUE) (t : Ptr) : Bool :=
  match e with
  | .solid _ _ => false
  | .texture _ _ _ _ tex _ _ => tex == t

/-- The fields of TEXTURE that the drawing code reads: the pixel bytes
(palette indices, row after row) and the dimensions. -/
structure TEXTURE where
  texture : List Nat
  width : Int
  height : Int
deriving DecidableEq, Repr

/-- The software buffer: its dimensions and one list of entries per layer
(`queue[i]`, for i below RENDERLAYERS = queue.length). -/
structure SOFTWAREBUFFER where
  width : Int
  height : Int
  queue : List (List RENDERQUEUE)
deriving DecidableEq, Repr

/-- Read of `queue[layer]`. -/
def SOFTWAREBUFFER.layer (b : SOFTWAREBUFFER) (layer : Nat) : List RENDERQUEUE :=
  b.queue.getD layer []

/-- The two closing statements of every draw call:
`newEntry->next = queue[layer]; queue[layer] = newEntry;`. -/
def SOFTWAREBUFFER.link (b : SOFTWAREBUFFER) (layer : Nat) (newEntry : RENDERQUEUE) :
    SOFTWAREBUFFER :=
  { b with queue := b.queue.set layer (newEntry :: b.layer layer) }

/-- The clipping of `SOFTWAREBUFFER::DrawQuad`: the value of `newEntry->dest`
when the off-screen test is reached. Each `let` is one assignment of the
source; a field that an `if` of the source leaves alone keeps its value. -/
def clipQuad (width height : Int) (quad : SDL_Rect) : SDL_Rect :=
  -- newEntry->dest = *quad; clip top and left
  let x := if quad.x < 0 then quad.x - quad.x else quad.x
  let w := if quad.x < 0 then quad.w + quad.x else quad.w
  let y := if quad.y < 0 then quad.y - quad.y else quad.y
  let h := if quad.y < 0 then quad.h + quad.y else quad.h
  -- clip right and bottom
  let w := if x > width - w then w - (x - (width - w)) else w
  let h := if y > height - h then h - (y - (height - h)) else h
  ⟨x, y, w, h⟩

/-- `SOFTWAREBUFFER::DrawQuad(layer, quad, colour)`. -/
def SOFTWAREBUFFER.DrawQuad (b : SOFTWAREBUFFER) (layer : Nat) (quad : SDL_Rect)
    (colour : Ptr) : SOFTWAREBUFFER :=
  let dest := clipQuad b.width b.height quad
  -- quit if clipped off-screen
  if dest.w ≤ 0 ∨ dest.h ≤ 0 then b
  else b.link layer (RENDERQUEUE.solid dest colour)

/-- The source rectangle that DrawTexture uses: `*src`, or the entire texture
when `src` is the null pointer. -/
def sourceRect (textureAt : Ptr → TEXTURE) (texture : Ptr) (src : Option SDL_Rect) : SDL_Rect :=
  match src with
  | some r => r
  | none => ⟨0, 0, (textureAt texture).width, (textureAt texture).height⟩

/-- What the clipping of DrawTexture computes: the destination rectangle
`{x, y, newSrc.w, newSrc.h}` and the source origin `newSrc.x`, `newSrc.y`. -/
structure ClippedBlit where
  dest : SDL_Rect
  srcX : Int
  srcY : Int
deriving DecidableEq, Repr

/-- The clipping of `SOFTWAREBUFFER::DrawTexture` ("Clip to the destination"),
one `let` per assignment of the source. -/
def clipTexture (width height : Int) (newSrc : SDL_Rect) (x y : Int) (xFlip yFlip : Bool) :
    ClippedBlit :=
  -- if (x < 0) { if (!xFlip) newSrc.x -= x; newSrc.w += x; x -= x; }
  let srcX := if x < 0 then (if !xFlip then newSrc.x - x else newSrc.x) else newSrc.x
  let srcW := if x < 0 then newSrc.w + x else newSrc.w
  let x := if x < 0 then x - x else x
  -- int dx = x + newSrc.w - width; if (dx > 0) { if (xFlip) newSrc.x += dx; newSrc.w -= dx; }
  let dx := x + srcW - width
  let srcX := if dx > 0 then (if xFlip then srcX + dx else srcX) else srcX
  let srcW := if dx > 0 then srcW - dx else srcW
  -- if (y < 0) { if (!yFlip) newSrc.y -= y; newSrc.h += y; y -= y; }
  let srcY := if y < 0 then (if !yFlip then newSrc.y - y else newSrc.y) else newSrc.y
  let srcH := if y < 0 then newSrc.h + y else newSrc.h
  let y := if y < 0 then y - y else y
  -- int dy = y + newSrc.h - height; if (dy > 0) { if (yFlip) newSrc.y += dy; newSrc.h -= dy; }
  let dy := y + srcH - height
  let srcY := if dy > 0 then (if yFlip then srcY + dy else srcY) else srcY
  let srcH := if dy > 0 then srcH - dy else srcH
  ⟨⟨x, y, srcW, srcH⟩, srcX, srcY⟩

/-- `SOFTWAREBUFFER::DrawTexture(texture, palette, src, layer, x, y, xFlip, yFlip)`.
`textureAt` is the memory that the `texture` pointer is read through. -/
def SOFTWAREBUFFER.DrawTexture (b : SOFTWAREBUFFER) (textureAt : Ptr → TEXTURE)
    (texture palette : Ptr) (src : Option SDL_Rect) (layer : Nat) (x y : Int)
    (xFlip yFlip : Bool) : SOFTWAREBUFFER :=
  let newSrc := sourceRect textureAt texture src
  let c := clipTexture b.width b.height newSrc x y xFlip yFlip
  b.link layer (RENDERQUEUE.texture c.dest c.srcX c.srcY palette texture xFlip yFlip)

/-- `SOFTWAREBUFFER::DrawPoint(layer, x, y, colour)`. -/
def SOFTWAREBUFFER.DrawPoint (b : SOFTWAREBUFFER) (layer : Nat) (x y : Int)
    (colour : Ptr) : SOFTWAREBUFFER :=
  if x < 0 ∨ x ≥ b.width then b
  else if y < 0 ∨ y ≥ b.height then b
  else b.link layer (RENDERQUEUE.solid ⟨x, y, 1, 1⟩ colour)

/-- The pixel (px, py) lies in the rectangle r. -/
def SDL_Rect.covers (r : SDL_Rect) (px py : Int) : Prop :=
  r.x ≤ px ∧ px < r.x + r.w ∧ r.y ≤ py ∧ py < r.y + r.h

instance (r : SDL_Rect) (px py : Int) : Decidable (r.covers px py) :=
  inferInstanceAs (Decidable (r.x ≤ px ∧ px < r.x + r.w ∧ r.y ≤ py ∧ py < r.y + r.h))

/-- The pixel (px, py) lies in the buffer. -/
def SOFTWAREBUFFER.inBounds (b : SOFTWAREBUFFER) (px py : Int) : Prop :=
  0 ≤ px ∧ px < b.width ∧ 0 ≤ py ∧ py < b.height

instance (b : SOFTWAREBUFFER) (px py : Int) : Decidable (b.inBounds px py) :=
  inferInstanceAs (Decidable (0 ≤ px ∧ px < b.width ∧ 0 ≤ py ∧ py < b.height))

/-! ## Palette -/

/-- A palette colour: the packed native value `colour` (a uint32), the
current r, g, b and the original r, g, b (each a uint8). -/
structure PALCOLOUR where
  colour : Nat
  r : Fin 256
  g : Fin 256
  b : Fin 256
  ogr : Fin 256
  ogg : Fin 256
  ogb : Fin 256
deriving DecidableEq, Repr

/-- A palette: the array `colour[0x100]`. -/
structure PALETTE where
  colour : List PALCOLOUR
deriving DecidableEq, Repr

/-- The type of `SDL_MapRGB`, a function of the SDL library: the packed value
of (r, g, b) in a pixel format. `Fmt` stands for `SDL_PixelFormat`. -/
abbrev MapRGB (Fmt : Type) := Fmt → Fin 256 → Fin 256 → Fin 256 → Nat

/-- `SetPaletteColour(palColour, r, g, b)`. -/
def SetPaletteColour {Fmt : Type} (SDL_MapRGB : MapRGB Fmt) (gNativeFormat : Fmt)
    (palColour : PALCOLOUR) (r g b : Fin 256) : PALCOLOUR :=
  -- set formatted colour
  let palColour := { palColour with colour := SDL_MapRGB gNativeFormat r g b }
  -- set colours
  let palColour := { palColour with r := r, g := g, b := b }
  -- set original colours
  { palColour with ogr := r, ogg := g, ogb := b }

/-- `ModifyPaletteColour(palColour, r, g, b)`. -/
def ModifyPaletteColour {Fmt : Type} (SDL_MapRGB : MapRGB Fmt) (gNativeFormat : Fmt)
    (palColour : PALCOLOUR) (r g b : Fin 256) : PALCOLOUR :=
  let palColour := { palColour with colour := SDL_MapRGB gNativeFormat r g b }
  { palColour with r := r, g := g, b := b }

/-- `RegenPaletteColour(palColour)`. -/
def RegenPaletteColour {Fmt : Type} (SDL_MapRGB : MapRGB Fmt) (gNativeFormat : Fmt)
    (palColour : PALCOLOUR) : PALCOLOUR :=
  { palColour with colour := SDL_MapRGB gNativeFormat palColour.r palColour.g palColour.b }

/-! ## Compositor -/

/-- What the pointers stored in queue entries point to when the queue is
rasterized. -/
structure Memory where
  colourAt : Ptr → PALCOLOUR
  paletteAt : Ptr → PALETTE
  textureAt : Ptr → TEXTURE

/-- The pixels of the upload buffer by column and row. The row stride is not
modelled. -/
abbrev Frame := Int → Int → Nat

/-- Modelled from the spec: the rasterizers Blit8, Blit16 and Blit32 that
RenderToScreen calls are not part of Render.cpp. This is the value an entry
writes at the destination pixel (px, py), after section 4.4: a solid entry
writes the packed value of the colour it references; a textured entry reads
the source pixel at (srcX + column, srcY + row), column and row counted from
the destination origin and reversed across the destination width or height
when the flip flag is set, and resolves the index through the palette of the
entry. -/
def entryValue (mem : Memory) (e : RENDERQUEUE) (px py : Int) : Nat :=
  match e with
  | .solid _ colour => (mem.colourAt colour).colour
  | .texture dest srcX srcY palette texture xFlip yFlip =>
    let column := px - dest.x
    let row := py - dest.y
    let u := srcX + (if xFlip then dest.w - 1 - column else column)
    let v := srcY + (if yFlip then dest.h - 1 - row else row)
    let t := mem.textureAt texture
    let index := t.texture.getD (v * t.width + u).toNat 0
    ((mem.paletteAt palette).colour.getD index ⟨0, 0, 0, 0, 0, 0, 0⟩).colour

/-- Modelled from the spec: the rasterizers are not part of Render.cpp. One
entry is rasterized by writing its value at every pixel of its destination
rectangle; a write replaces what the pixel held (section 4.4: later writes
overwrite earlier ones). -/
def blitEntry (mem : Memory) (e : RENDERQUEUE) (fb : Frame) : Frame :=
  fun px py => if e.dest.covers px py then entryValue mem e px py else fb px py

/-- Modelled from the spec: the rasterizers are not part of Render.cpp. Within
a layer the entries are rasterized in their list order, from the head of the
list (section 4.4). -/
def blitLayer (mem : Memory) (entries : List RENDERQUEUE) (fb : Frame) : Frame :=
  entries.foldl (fun fb e => blitEntry mem e fb) fb

/-- Modelled from the spec: the rasterizers Blit8, Blit16 and Blit32 are not
part of Render.cpp. After section 4.4 the buffer is filled with the background
colour and then every layer is rasterized, from the lowest index to the
highest. The three pixel depths differ in the element width only, which the
model does not distinguish. -/
def Blit (mem : Memory) (backgroundColour : Ptr) (queue : List (List RENDERQUEUE)) : Frame :=
  queue.foldl (fun fb entries => blitLayer mem entries fb)
    (fun _ _ => (mem.colourAt backgroundColour).colour)

/-- The loop "Clear all layers" of RenderToScreen: for every i below
RENDERLAYERS the entries of `queue[i]` are deleted one after the other, the
next pointer being read before the delete, and `queue[i]` is set to the null
pointer. -/
def clearLayers (queue : List (List RENDERQUEUE)) : List (List RENDERQUEUE) :=
  (List.range queue.length).foldl (fun q i => q.set i []) queue

/-- The results of the SDL calls that one RenderToScreen call makes. -/
structure RenderEnv where
  /-- SDL_LockTexture returned a value >= 0 -/
  lockOk : Bool
  /-- The field BytesPerPixel of gNativeFormat -/
  BytesPerPixel : Nat
  /-- SDL_RenderCopy returned a value >= 0 -/
  copyOk : Bool
  /-- SDL_GetTicks() -/
  timeNow : Nat

/-- What one RenderToScreen call returns and does. -/
structure RenderOutcome where
  /-- The return value -/
  result : Bool
  /-- The software buffer afterwards -/
  buffer : SOFTWAREBUFFER
  /-- The frame written by the rasterizer, if it ran -/
  frame : Option Frame
  /-- The number of SDL_RenderPresent calls -/
  presents : Nat
  /-- The argument of SDL_Delay in milliseconds, if it was called -/
  delay : Option Nat
  /-- The static variable timePrev afterwards -/
  timePrev : ℚ

/-- The frame duration `framerateMilliseconds = 1000.0 / FRAMERATE`. The long
double arithmetic of the limiter is modelled by exact rationals. -/
def framerateMilliseconds (FRAMERATE : ℚ) : ℚ := 1000 / FRAMERATE

/-- Modelled from the spec: the function `Error(message)` that the failure
paths return is not part of the source files at hand. After section 7 an error
is reported to the caller as a hard failure of the call, so the value that
`return Error(...)` yields is false; the message is not modelled. -/
def Error : Bool := false

/-- `SOFTWAREBUFFER::RenderToScreen(backgroundColour)`. `vsyncMultiple` is the
global, `timePrev` the static local of the framerate limiter. -/
def SOFTWAREBUFFER.RenderToScreen (b : SOFTWAREBUFFER) (mem : Memory) (FRAMERATE : ℚ)
    (env : RenderEnv) (vsyncMultiple : Nat) (timePrev : ℚ) (backgroundColour : Ptr) :
    RenderOutcome :=
  -- lock texture
  if !env.lockOk then ⟨Error, b, none, 0, none, timePrev⟩
  -- render to our buffer
  else if !(env.BytesPerPixel = 1 ∨ env.BytesPerPixel = 2 ∨ env.BytesPerPixel = 4) then
    ⟨Error, b, none, 0, none, timePrev⟩
  else
    let frame := Blit mem backgroundColour b.queue
    -- clear all layers
    let b := { b with queue := clearLayers b.queue }
    -- copy to renderer
    if !env.copyOk then ⟨Error, b, some frame, 0, none, timePrev⟩
    else if vsyncMultiple ≠ 0 then
      -- present vsyncMultiple times
      ⟨true, b, some frame, (List.range vsyncMultiple).foldl (fun n _ => n + 1) 0, none, timePrev⟩
    else
      -- present once, then the framerate limiter
      let timeNext := timePrev + framerateMilliseconds FRAMERATE
      if (env.timeNow : ℚ) ≥ timePrev + 100 then
        ⟨true, b, some frame, 1, none, (env.timeNow : ℚ)⟩
      else if (env.timeNow : ℚ) < timeNext then
        ⟨true, b, some frame, 1, some ⌊timeNext - env.timeNow⌋.toNat,
          timePrev + framerateMilliseconds FRAMERATE⟩
      else
        ⟨true, b, some frame, 1, none, timePrev + framerateMilliseconds FRAMERATE⟩

/-- The function `std::modf` on exact rationals: the fractional part and the
integral part, both with the sign of the argument. -/
def modf (q : ℚ) : ℚ × ℚ :=
  let integral : ℚ := if 0 ≤ q then (⌊q⌋ : ℤ) else (⌈q⌉ : ℤ)
  (q - integral, integral)

/-- `RenderCheckVSync()`: the return value and `vsyncMultiple` afterwards.
`refresh_rate` is the refresh rate of the display mode, or none when
SDL_GetWindowDisplayMode fails; `refreshOk` is the result of RefreshRenderer.
The quotient is taken in exact rationals: for two ints the long double
quotient is a whole number exactly when the exact quotient is one. -/
def RenderCheckVSync (FRAMERATE : Int) (vsyncMultiple : Nat) (refresh_rate : Option Int)
    (refreshOk : Bool) : Bool × Nat :=
  match refresh_rate with
  | none => (Error, vsyncMultiple)
  | some rate =>
    let refreshFractional := (modf ((rate : ℚ) / (FRAMERATE : ℚ))).1
    let refreshIntegral := (modf ((rate : ℚ) / (FRAMERATE : ℚ))).2
    let vsyncMultiple :=
      if refreshIntegral ≥ 1 ∧ refreshFractional = 0 then ⌊refreshIntegral⌋.toNat % 2 ^ 32
      else vsyncMultiple
    (refreshOk, vsyncMultiple)

/-! ## The destructor of TEXTURE, on nodes and pointers -/

/-- A RENDERQUEUE node in memory: the entry and its `next` pointer. -/
structure Node where
  entry : RENDERQUEUE
  next : Option Ptr
deriving DecidableEq, Repr

/-- A heap cell that holds or held a node: `live` after `new`, `freed` after
`delete`. A freed cell remembers the node last stored in it. -/
inductive Cell where
  | live (n : Node)
  | freed (n : Node)
deriving DecidableEq, Repr

/-- The render queue in memory: the heap of nodes, the cell at address a being
`heap[a]`, and the head pointer `queue[i]` of every layer. -/
structure QueueMem where
  heap : List Cell
  queue : List (Option Ptr)
deriving DecidableEq, Repr

/-- How a run of the destructor can go wrong. -/
inductive Fault where
  | useAfterFree
  | wildPointer
  | outOfFuel
deriving DecidableEq, Repr

/-- Read of the node at address a. Reading a freed node is undefined in C++:
with `lenient = false` it is the fault `useAfterFree`; with `lenient = true`
the read yields the node last stored there, as an allocator that leaves freed
memory untouched would. -/
def QueueMem.read (lenient : Bool) (m : QueueMem) (a : Ptr) : Except Fault Node :=
  match m.heap[a]? with
  | some (Cell.live n) => .ok n
  | some (Cell.freed n) => if lenient then .ok n else .error Fault.useAfterFree
  | none => .error Fault.wildPointer

/-- The statement `delete entry`. -/
def QueueMem.delete (m : QueueMem) (a : Ptr) : Except Fault QueueMem :=
  match m.heap[a]? with
  | some (Cell.live n) => .ok { m with heap := m.heap.set a (Cell.freed n) }
  | some (Cell.freed _) => .error Fault.useAfterFree
  | none => .error Fault.wildPointer

/-- What `dcEntry` points to: the head pointer `queue[i]` or the `next` field
of the node at an address. -/
inductive Loc where
  | head (i : Nat)
  | next (a : Ptr)
deriving DecidableEq, Repr

/-- Read of `*dcEntry`. -/
def QueueMem.readLoc (lenient : Bool) (m : QueueMem) : Loc → Except Fault (Option Ptr)
  | Loc.head i =>
    match m.queue[i]? with
    | some p => .ok p
    | none => .error Fault.wildPointer
  | Loc.next a => (m.read lenient a).map Node.next

/-- The assignment `*dcEntry = p`. -/
def QueueMem.writeLoc (lenient : Bool) (m : QueueMem) : Loc → Option Ptr → Except Fault QueueMem
  | Loc.head i, p =>
    if i < m.queue.length then .ok { m with queue := m.queue.set i p }
    else .error Fault.wildPointer
  | Loc.next a, p =>
    match m.heap[a]? with
    | some (Cell.live n) => .ok { m with heap := m.heap.set a (Cell.live { n with next := p }) }
    | some (Cell.freed n) =>
      if lenient then .ok { m with heap := m.heap.set a (Cell.freed { n with next := p }) }
      else .error Fault.useAfterFree
    | none => .error Fault.wildPointer

/-- The inner loop of the destructor, "Remove from linked list":
`for (dcEntry = &queue[i]; *dcEntry != nullptr; dcEntry = &(*dcEntry)->next)`
`if (*dcEntry == entry) { *dcEntry = entry->next; break; }`. The first argument
bounds the number of iterations. -/
def unlinkEntry (lenient : Bool) : Nat → QueueMem → Loc → Ptr → Except Fault QueueMem
  | 0, _, _, _ => .error Fault.outOfFuel
  | fuel + 1, m, dcEntry, entry =>
    match m.readLoc lenient dcEntry with
    | .error f => .error f
    | .ok none => .ok m
    | .ok (some p) =>
      if p = entry then
        match m.read lenient entry with
        | .error f => .error f
        | .ok n => m.writeLoc lenient dcEntry n.next
      else unlinkEntry lenient fuel m (Loc.next p) entry

/-- The body of the walk over one layer, up to and including `delete entry`:
when the entry is a textured entry of the texture `this`, it is unlinked and
deleted. -/
def removeIfReferencing (lenient : Bool) (this : Ptr) (i : Nat) (inner : Nat) (m : QueueMem)
    (entry : Ptr) : Except Fault QueueMem :=
  match m.read lenient entry with
  | .error f => .error f
  | .ok n =>
    if n.entry.references this then
      match unlinkEntry lenient inner m (Loc.head i) entry with
      | .error f => .error f
      | .ok m => m.delete entry
    else .ok m

/-- The walk of the destructor over layer i:
`for (entry = queue[i]; entry != nullptr; entry = entry->next) { ... }`.
The step `entry = entry->next` is taken after the body, so after
`delete entry` when the entry referenced the texture. -/
def scanLayer (lenient : Bool) (this : Ptr) (i : Nat) (inner : Nat) :
    Nat → QueueMem → Option Ptr → Except Fault QueueMem
  | 0, _, _ => .error Fault.outOfFuel
  | _ + 1, m, none => .ok m
  | fuel + 1, m, some entry =>
    match removeIfReferencing lenient this i inner m entry with
    | .error f => .error f
    | .ok m =>
      match m.read lenient entry with
      | .error f => .error f
      | .ok n => scanLayer lenient this i inner fuel m n.next

/-- The loop over the layers, for i from `i` up to RENDERLAYERS, the latter
being `i` plus the first argument. -/
def scanLayers (lenient : Bool) (this : Ptr) (fuel : Nat) :
    Nat → Nat → QueueMem → Except Fault QueueMem
  | 0, _, m => .ok m
  | layers + 1, i, m =>
    match m.queue[i]? with
    | none => .error Fault.wildPointer
    | some entry =>
      match scanLayer lenient this i fuel fuel m entry with
      | .error f => .error f
      | .ok m => scanLayers lenient this fuel layers (i + 1) m

/-- The queue part of `TEXTURE::~TEXTURE()`, run on the queue of the active
software buffer for the texture at address `this`; RENDERLAYERS is the number
of head pointers. `fuel` bounds the iterations of each list walk. -/
def TEXTURE.destructor (lenient : Bool) (fuel : Nat) (this : Ptr) (m : QueueMem) :
    Except Fault QueueMem :=
  scanLayers lenient this fuel m.queue.length 0 m

/-- The entries of the list that starts at `p`, read through the live nodes;
the first argument bounds the length. -/
def QueueMem.entriesFrom (m : QueueMem) : Nat → Option Ptr → List RENDERQUEUE
  | 0, _ => []
  | _ + 1, none => []
  | fuel + 1, some a =>
    match m.heap[a]? with
    | some (Cell.live n) => n.entry :: m.entriesFrom fuel n.next
    | _ => []

/-- The layers of the queue as lists of entries. -/
def QueueMem.layers (m : QueueMem) : List (List RENDERQUEUE) :=
  m.queue.map (m.entriesFrom m.heap.length)

/-! ## The texture registry -/

/-- An entry of the palette of a loaded bitmap (SDL_Color). -/
structure SDL_Color where
  r : Fin 256
  g : Fin 256
  b : Fin 256
deriving DecidableEq, Repr

/-- The fields of the surface returned by SDL_LoadBMP that the constructor
reads. `palette` is `format->palette`, none for the null pointer; its length
is `ncolors`. -/
structure SDL_Surface where
  palette : Option (List SDL_Color)
  BytesPerPixel : Nat
  pixels : List Nat
  pitch : Int
  h : Int
deriving DecidableEq, Repr

/-- A TEXTURE object in memory with all its fields. `list` is the address of
the head variable the texture was attached to and `next` the texture that was
the head before; `fail` is the failure message, none for the null pointer. -/
structure TEXTURE_OBJECT where
  source : Option String
  fail : Option String
  texture : Option (List Nat)
  width : Int
  height : Int
  loadedPalette : Option PALETTE
  list : Option Ptr
  next : Option Ptr
deriving DecidableEq, Repr

/-- The object after `memset(this, 0, sizeof(TEXTURE))`. -/
def TEXTURE_OBJECT.zero : TEXTURE_OBJECT :=
  ⟨none, none, none, 0, 0, none, none, none⟩

/-- The textures and the head variables of the registries: `heads l` is the
value of the head variable `TEXTURE *` at address l, `objects p` the TEXTURE
object that lives at address p, none where no object lives. -/
structure TextureWorld where
  heads : Ptr → Option Ptr
  objects : Ptr → Option TEXTURE_OBJECT

/-- The block "Attach to linked list if given" that ends both constructors:
`if (linkedList != nullptr) { list = linkedList; next = *linkedList;`
`*linkedList = this; }`. -/
def TextureWorld.attach (w : TextureWorld) (this : Ptr) (obj : TEXTURE_OBJECT)
    (linkedList : Option Ptr) : TextureWorld :=
  match linkedList with
  | some l =>
    { heads := Function.update w.heads l (some this),
      objects := Function.update w.objects this
        (some { obj with list := some l, next := w.heads l }) }
  | none => { w with objects := Function.update w.objects this (some obj) }

/-- An early `return` of a constructor with `fail` set: the object stays as it
is at that point and nothing else is written. -/
def TextureWorld.failed (w : TextureWorld) (this : Ptr) (obj : TEXTURE_OBJECT)
    (message : String) : TextureWorld :=
  { w with objects := Function.update w.objects this (some { obj with fail := some message }) }

/-- The palette the constructor builds from the `ncolors` colours of the
bitmap: entry i below ncolors is set with SetPaletteColour, every entry from
ncolors up to 0x100 is a copy of entry 0, or black when the bitmap has no
colours. The result of SetPaletteColour does not depend on the colour it
overwrites. -/
def loadPalette {Fmt : Type} (SDL_MapRGB : MapRGB Fmt) (gNativeFormat : Fmt)
    (colors : List SDL_Color) : PALETTE :=
  let set := colors.map
    (fun c => SetPaletteColour SDL_MapRGB gNativeFormat ⟨0, 0, 0, 0, 0, 0, 0⟩ c.r c.g c.b)
  let black := SetPaletteColour SDL_MapRGB gNativeFormat ⟨0, 0, 0, 0, 0, 0, 0⟩ 0 0 0
  let pad := if colors.length ≠ 0 then set.getD 0 black else black
  ⟨set ++ List.replicate (0x100 - set.length) pad⟩

/-- `TEXTURE::TEXTURE(TEXTURE **linkedList, const char *path)` for the object
at address `this`. `bitmap` is the result of SDL_LoadBMP (none for the null
pointer) and `sdlError` that of SDL_GetError; `paletteOk` and `mallocOk` tell
whether `new PALETTE` and `malloc` returned a non-null pointer. -/
def TEXTURE.fromPath {Fmt : Type} (SDL_MapRGB : MapRGB Fmt) (gNativeFormat : Fmt)
    (w : TextureWorld) (this : Ptr) (linkedList : Option Ptr) (path : String)
    (bitmap : Option SDL_Surface) (sdlError : String) (paletteOk mallocOk : Bool) :
    TextureWorld :=
  let obj := { TEXTURE_OBJECT.zero with source := some path }
  match bitmap with
  | none => w.failed this obj sdlError
  | some bmp =>
    match bmp.palette with
    | none => w.failed this obj "Bitmap is not an 8-bit indexed .bmp"
    | some colors =>
      if bmp.BytesPerPixel > 1 then w.failed this obj "Bitmap is not an 8-bit indexed .bmp"
      else if !paletteOk then w.failed this obj "Failed to allocate palette for texture"
      else
        let obj := { obj with loadedPalette := some (loadPalette SDL_MapRGB gNativeFormat colors) }
        -- the palette is deleted on this path; the field keeps the pointer
        if !mallocOk then w.failed this obj "Failed to allocate texture buffer"
        else
          let obj := { obj with
            texture := some (bmp.pixels.take (bmp.pitch * bmp.h).toNat),
            width := bmp.pitch, height := bmp.h }
          w.attach this obj linkedList

/-- `TEXTURE::TEXTURE(TEXTURE **linkedList, uint8_t *data, int dWidth, int dHeight)`
for the object at address `this`; `mallocOk` tells whether `malloc` returned a
non-null pointer. -/
def TEXTURE.fromMemory (w : TextureWorld) (this : Ptr) (linkedList : Option Ptr)
    (data : List Nat) (dWidth dHeight : Int) (mallocOk : Bool) : TextureWorld :=
  let obj := TEXTURE_OBJECT.zero
  if !mallocOk then w.failed this obj "Failed to allocate texture buffer"
  else
    let obj := { obj with
      texture := some (data.take (dWidth * dHeight).toNat), width := dWidth, height := dHeight }
    w.attach this obj linkedList

/-- The effect of `TEXTURE::~TEXTURE()` on the textures and the head
variables. The destructor walks the render queue, frees the pixel buffer and
deletes the loaded palette, after which the object at `this` is gone. It has no
statement that reads or writes `list`, `next` or `*list`. -/
def TEXTURE.destroyObject (w : TextureWorld) (this : Ptr) : TextureWorld :=
  { w with objects := Function.update w.objects this none }

/-- The addresses linked from pointer p, in link order: p, then what the `next`
field of the object at p links, and so on. The chain ends at the null pointer
and behind an address at which no object lives, whose `next` cannot be read.
The first argument bounds the length. -/
def TextureWorld.chain (w : TextureWorld) : Nat → Option Ptr → List Ptr
  | 0, _ => []
  | _ + 1, none => []
  | fuel + 1, some p =>
    p :: (match w.objects p with
      | some o => w.chain fuel o.next
      | none => [])

/-- What a successful creation with a head variable has to achieve, and what a
creation without one or a failed one has to leave alone: `w2` is the state
after creating the texture at `this` in the state `w`. -/
def TextureWorld.CreatedFrom (w2 w : TextureWorld) (this : Ptr) (linkedList : Option Ptr) :
    Prop :=
  (∀ p, p ≠ this → w2.objects p = w.objects p) ∧
  ∃ o, w2.objects this = some o ∧
    -- creation failed: no head variable is written, the texture is not linked
    (o.fail ≠ none → w2.heads = w.heads ∧ o.list = none ∧ o.next = none) ∧
    -- creation succeeded without a head variable: no list, no next
    (o.fail = none → linkedList = none → w2.heads = w.heads ∧ o.list = none ∧ o.next = none) ∧
    -- creation succeeded with the head variable at l
    (o.fail = none → ∀ l, linkedList = some l →
      w2.heads l = some this ∧ o.next = w.heads l ∧ o.list = some l ∧
      (∀ k, k ≠ l → w2.heads k = w.heads k) ∧
      ∀ fuel, this ∉ w.chain fuel (w.heads l) →
        w2.chain (fuel + 1) (w2.heads l) = this :: w.chain fuel (w.heads l))

/-! ## Camera -/

/-- The narrowing of a value to `int16_t`: the value modulo 2^16 in the range
from -32768 to 32767. -/
def int16 (v : Int) : Int := (v + 32768) % 65536 - 32768

/-- The boundaries of the level that the camera reads from `gLevel`. -/
structure LEVEL where
  leftBoundary : Int
  rightBoundary : Int
  topBoundary : Int
  bottomBoundary : Int
deriving DecidableEq, Repr

/-- A coordinate of the player, read as `x.pos` and `y.pos`. -/
structure POSDEF where
  pos : Int
deriving DecidableEq, Repr

/-- An entry of the position record of the player. -/
structure POSRECORD where
  x : Int
  y : Int
deriving DecidableEq, Repr

/-- The status flags of the player that the camera reads. -/
structure PLAYERSTATUS where
  inBall : Bool
  inAir : Bool
deriving DecidableEq, Repr

/-- The fields of PLAYER that the camera reads or writes. `posRecord` is the
array of recorded positions by index. -/
structure PLAYER where
  x : POSDEF
  y : POSDEF
  cameraLock : Bool
  scrollDelay : Int
  recordPos : Int
  posRecord : Int → POSRECORD
  status : PLAYERSTATUS
  inertia : Int

/-- The fields of CAMERA that the code at hand reads or writes. -/
structure CAMERA where
  x : Int
  y : Int
  xPan : Int
  lookPan : Int
deriving DecidableEq, Repr

/-- The constant CAMERA_HSCROLL_LEFT. -/
def CAMERA_HSCROLL_LEFT : Int := -16

/-- The constant CAMERA_HSCROLL_SIZE. -/
def CAMERA_HSCROLL_SIZE : Int := 16

/-- The constant CAMERA_VSCROLL_OFFSET. -/
def CAMERA_VSCROLL_OFFSET : Int := -16

/-- The constant CAMERA_VSCROLL_UP. -/
def CAMERA_VSCROLL_UP : Int := 32

/-- The constant CAMERA_VSCROLL_DOWN. -/
def CAMERA_VSCROLL_DOWN : Int := 32

/-- `CAMERA::CAMERA(trackPlayer)`. SCREEN_WIDTH and SCREEN_HEIGHT are defined
outside the source files at hand and are parameters; `/` of C is the division
that truncates. The fields are cleared by memset and x, y are then set and
kept inside the level boundaries, each test being made on the value that the
test before it left. -/
def CAMERA.new (SCREEN_WIDTH SCREEN_HEIGHT : Int) (gLevel : LEVEL) (trackPlayer : PLAYER) :
    CAMERA :=
  -- move to our given player
  let x := trackPlayer.x.pos - Int.tdiv SCREEN_WIDTH 2
  let y := trackPlayer.y.pos - (Int.tdiv SCREEN_HEIGHT 2 - 16)
  -- keep inside level boundaries
  let x := if x < gLevel.leftBoundary then gLevel.leftBoundary else x
  let x := if x + SCREEN_WIDTH > gLevel.rightBoundary then gLevel.rightBoundary - SCREEN_WIDTH
    else x
  let y := if y < gLevel.topBoundary then gLevel.topBoundary else y
  let y := if y + SCREEN_HEIGHT > gLevel.bottomBoundary then gLevel.bottomBoundary - SCREEN_HEIGHT
    else y
  ⟨x, y, 0, 0⟩

/-- The horizontal part of `CAMERA::Track`: the new x for the tracked
position `trackX`. The local `hScrollOffset` is an int16_t, so every value
assigned to it is narrowed. -/
def trackHorizontal (SCREEN_WIDTH : Int) (gLevel : LEVEL) (c : CAMERA) (trackX : Int) : Int :=
  let hScrollOffset := int16 (trackX - c.x - c.xPan)
  let hScrollOffset := int16 (hScrollOffset - (Int.tdiv SCREEN_WIDTH 2 + CAMERA_HSCROLL_LEFT))
  if hScrollOffset < 0 then
    -- scroll to the left, at most 16 pixels per frame
    let hScrollOffset := if hScrollOffset ≤ -16 then -16 else hScrollOffset
    let x := c.x + hScrollOffset
    if x < gLevel.leftBoundary then gLevel.leftBoundary else x
  else
    let hScrollOffset := int16 (hScrollOffset - CAMERA_HSCROLL_SIZE)
    if hScrollOffset ≥ 0 then
      -- scroll to the right, at most 16 pixels per frame
      let hScrollOffset := if hScrollOffset > 16 then 16 else hScrollOffset
      let x := c.x + hScrollOffset
      if x + SCREEN_WIDTH > gLevel.rightBoundary then gLevel.rightBoundary - SCREEN_WIDTH else x
    else c.x

/-- The vertical part of `CAMERA::Track`: the new y. The local `vScrollOffset`
is an int16_t and `scrollSpeed` a uint16_t with the values 16, 2 or 6. -/
def trackVertical (SCREEN_HEIGHT : Int) (gLevel : LEVEL) (c : CAMERA) (trackPlayer : PLAYER) :
    Int :=
  let vScrollOffset := int16 (trackPlayer.y.pos - c.y
    - (Int.tdiv SCREEN_HEIGHT 2 + CAMERA_VSCROLL_OFFSET) - c.lookPan)
  -- shift up 5 pixels if in ball-form
  let vScrollOffset := if trackPlayer.status.inBall then int16 (vScrollOffset - 5)
    else vScrollOffset
  let vScrollOffset :=
    if trackPlayer.status.inAir then
      if vScrollOffset < -CAMERA_VSCROLL_UP then int16 (vScrollOffset + CAMERA_VSCROLL_UP)
      else if vScrollOffset ≥ CAMERA_VSCROLL_DOWN then int16 (vScrollOffset - CAMERA_VSCROLL_DOWN)
      else 0
    else vScrollOffset
  let scrollSpeed : Int :=
    if trackPlayer.status.inAir then 16
    else if c.lookPan ≠ 0 then 2
    else if |trackPlayer.inertia| ≥ 0x800 then 16 else 6
  if vScrollOffset < 0 then
    -- scroll upwards (cap to scrollSpeed)
    let vScrollOffset := if vScrollOffset ≤ -scrollSpeed then int16 (-scrollSpeed)
      else vScrollOffset
    let y := c.y + vScrollOffset
    if y < gLevel.topBoundary then gLevel.topBoundary else y
  else if vScrollOffset > 0 then
    -- scroll downwards (cap to scrollSpeed)
    let vScrollOffset := if vScrollOffset > scrollSpeed then int16 scrollSpeed else vScrollOffset
    let y := c.y + vScrollOffset
    if y + SCREEN_HEIGHT > gLevel.bottomBoundary then gLevel.bottomBoundary - SCREEN_HEIGHT else y
  else c.y

/-- `CAMERA::Track(trackPlayer)`: the camera and the player afterwards (the
call lowers the scroll delay of the player). SCREEN_WIDTH, SCREEN_HEIGHT and
PLAYER_RECORD_LENGTH are defined outside the source files at hand and are
parameters; `/` and `%` of C truncate. CAMERA_CD_PAN is not defined, so the
panning block is not compiled. -/
def CAMERA.Track (SCREEN_WIDTH SCREEN_HEIGHT PLAYER_RECORD_LENGTH : Int) (gLevel : LEVEL)
    (c : CAMERA) (trackPlayer : PLAYER) : CAMERA × PLAYER :=
  -- do not move if locked
  if trackPlayer.cameraLock then (c, trackPlayer)
  else
    -- scroll horizontally to the player
    let trackX := int16 trackPlayer.x.pos
    let scrollDelay := if trackPlayer.scrollDelay ≠ 0 then trackPlayer.scrollDelay - 0x100
      else trackPlayer.scrollDelay
    let trackX := if trackPlayer.scrollDelay ≠ 0 then
        int16 (trackPlayer.posRecord (Int.tmod
          (trackPlayer.recordPos - (Int.tdiv scrollDelay 0x100 + 1)) PLAYER_RECORD_LENGTH)).x
      else trackX
    let x := trackHorizontal SCREEN_WIDTH gLevel c trackX
    -- scroll vertically to the player
    let y := trackVertical SCREEN_HEIGHT gLevel c trackPlayer
    ({ c with x := x, y := y }, { trackPlayer with scrollDelay := scrollDelay })

/-- The camera shows a part of the level: x and y are inside the level
boundaries with a whole screen to the right and below. -/
def CAMERA.inside (SCREEN_WIDTH SCREEN_HEIGHT : Int) (gLevel : LEVEL) (c : CAMERA) : Prop :=
  gLevel.leftBoundary ≤ c.x ∧ c.x ≤ gLevel.rightBoundary - SCREEN_WIDTH ∧
  gLevel.topBoundary ≤ c.y ∧ c.y ≤ gLevel.bottomBoundary - SCREEN_HEIGHT

instance (SCREEN_WIDTH SCREEN_HEIGHT : Int) (gLevel : LEVEL) (c : CAMERA) :
    Decidable (c.inside SCREEN_WIDTH SCREEN_HEIGHT gLevel) :=
  inferInstanceAs (Decidable (gLevel.leftBoundary ≤ c.x ∧
    c.x ≤ gLevel.rightBoundary - SCREEN_WIDTH ∧
    gLevel.topBoundary ≤ c.y ∧ c.y ≤ gLevel.bottomBoundary - SCREEN_HEIGHT))

/-! ## Axis reading -/

/-- The control mask: one flag per button and direction. -/
structure CONTROLMASK where
  start : Bool
  a : Bool
  b : Bool
  c : Bool
  right : Bool
  left : Bool
  down : Bool
  up : Bool
deriving DecidableEq, Repr

/-- The constant AXIS_DEADZONE. -/
def AXIS_DEADZONE : Int := 0x180

/-- The constant DIRRAD ("about 58 degrees", in radians). -/
def DIRRAD : ℚ := 101229 / 100000

/-- `CONTROLLER::GetAxisState(chkAxisX, chkAxisY)`. `atan2` stands for
`std::atan2`, a function of the C library, with its result taken as a
rational; `state` is the value that the local `CONTROLMASK state;` starts
with, which the declaration of CONTROLMASK, not at hand, decides. The four
tests compare the angle with the constants of the source as written. -/
def GetAxisState (atan2 : Int → Int → ℚ) (state : CONTROLMASK) (chkAxisX chkAxisY : Int) :
    CONTROLMASK :=
  -- deadzone check
  if chkAxisX * chkAxisX + chkAxisY * chkAxisY < AXIS_DEADZONE * AXIS_DEADZONE then state
  else
    let angle := atan2 chkAxisY chkAxisX
    -- right
    let state := if angle ≥ -DIRRAD ∧ angle ≤ DIRRAD then { state with right := true } else state
    -- down
    let state := if angle ≥ 0x4000 - DIRRAD ∧ angle ≤ 0x4000 + DIRRAD then
      { state with down := true } else state
    -- left
    let state := if angle ≥ 0x8000 - DIRRAD ∨ angle ≤ -0x8000 + DIRRAD then
      { state with left := true } else state
    -- up
    let state := if angle ≥ -0x4000 - DIRRAD ∧ angle ≤ -0x4000 + DIRRAD then
      { state with up := true } else state
    state

/-- The block "Apply analogue stick control" of `CONTROLLER::Update`: the held
directions after the axis state has been merged in. -/
def applyAxisState (held axisState : CONTROLMASK) : CONTROLMASK :=
  let held := if axisState.right then { held with right := true } else held
  let held := if axisState.left then { held with left := true } else held
  let held := if axisState.down then { held with down := true } else held
  let held := if axisState.up then { held with up := true } else held
  held

/-- The values of atan2 on the four axis directions, rounded to five decimals:
0 to the right, pi/2 for y > 0, pi to the left, -pi/2 for y < 0. It is used
to run GetAxisState on axis positions. -/
def atan2OnAxes (y x : Int) : ℚ :=
  if y = 0 then (if x < 0 then 314159 / 100000 else 0)
  else if y > 0 then 157080 / 100000 else -157080 / 100000

/-! ## Theorems -/

/-- The clipped rectangle is dropped exactly when its width or height is not
positive; otherwise it is linked at the head of the layer. -/
theorem DrawQuad_eq (b : SOFTWAREBUFFER) (layer : Nat) (quad : SDL_Rect) (colour : Ptr) :
    b.DrawQuad layer quad colour =
      if (clipQuad b.width b.height quad).w ≤ 0 ∨ (clipQuad b.width b.height quad).h ≤ 0 then b
      else b.link layer (RENDERQUEUE.solid (clipQuad b.width b.height quad) colour) := rfl

/-- A concrete run of DrawQuad: the rectangle (-2,-3,5,20) in an 8x8 buffer is
clipped to (0,0,3,8) and linked. -/
theorem DrawQuad_example :
    (⟨8, 8, [[]]⟩ : SOFTWAREBUFFER).DrawQuad 0 ⟨-2, -3, 5, 20⟩ 1
      = ⟨8, 8, [[RENDERQUEUE.solid ⟨0, 0, 3, 8⟩ 1]]⟩ := by decide

/-- C2: for every buffer (in particular every buffer of positive width and
height) and every rectangle, DrawQuad either leaves the buffer as it was (no
entry added), or links exactly one solid entry at the head of the layer, and
that entry's destination rectangle has positive width and height and lies
inside the buffer: 0 <= x, x + w <= width, 0 <= y, y + h <= height. -/
theorem DrawQuad_clipped_or_dropped (b : SOFTWAREBUFFER) (layer : Nat) (quad : SDL_Rect)
    (colour : Ptr) :
    b.DrawQuad layer quad colour = b ∨
    ∃ dest : SDL_Rect,
      b.DrawQuad layer quad colour = b.link layer (RENDERQUEUE.solid dest colour) ∧
      0 < dest.w ∧ 0 < dest.h ∧
      0 ≤ dest.x ∧ dest.x + dest.w ≤ b.width ∧
      0 ≤ dest.y ∧ dest.y + dest.h ≤ b.height := by
  rw [DrawQuad_eq]
  by_cases hdrop : (clipQuad b.width b.height quad).w ≤ 0 ∨ (clipQuad b.width b.height quad).h ≤ 0
  · left; simp only [hdrop, if_true]
  · right
    refine ⟨clipQuad b.width b.height quad, by simp only [hdrop, if_false], ?_⟩
    revert hdrop
    simp only [clipQuad]
    split_ifs <;> intro hdrop <;> omega

/-- C3: a rectangle that has no pixel in common with the buffer area
[0,width) x [0,height) leaves the buffer, hence every layer of its render
queue, unchanged. -/
theorem DrawQuad_outside_noop (b : SOFTWAREBUFFER) (layer : Nat) (quad : SDL_Rect)
    (colour : Ptr) (hout : ∀ px py : Int, quad.covers px py → ¬ b.inBounds px py) :
    b.DrawQuad layer quad colour = b := by
  rw [DrawQuad_eq]
  have hcases : quad.w ≤ 0 ∨ quad.h ≤ 0 ∨ quad.x + quad.w ≤ 0 ∨ b.width ≤ quad.x ∨
      quad.y + quad.h ≤ 0 ∨ b.height ≤ quad.y ∨ b.width ≤ 0 ∨ b.height ≤ 0 := by
    by_contra hne
    simp only [not_or, not_le] at hne
    apply hout (max quad.x 0) (max quad.y 0)
    · unfold SDL_Rect.covers; omega
    · unfold SOFTWAREBUFFER.inBounds; omega
  have hdrop : (clipQuad b.width b.height quad).w ≤ 0 ∨
      (clipQuad b.width b.height quad).h ≤ 0 := by
    simp only [clipQuad]
    split_ifs <;> omega
  simp only [hdrop, if_true]

/-- Witness of C3: the rectangle (8,2,3,3) lies entirely right of an 8x8 buffer
whose layer 0 already holds an entry. -/
theorem DrawQuad_outside_noop_witness :
    (∀ px py : Int, (⟨8, 2, 3, 3⟩ : SDL_Rect).covers px py →
      ¬ (⟨8, 8, [[RENDERQUEUE.solid ⟨0, 0, 1, 1⟩ 5]]⟩ : SOFTWAREBUFFER).inBounds px py) ∧
    (⟨8, 8, [[RENDERQUEUE.solid ⟨0, 0, 1, 1⟩ 5]]⟩ : SOFTWAREBUFFER).DrawQuad 0 ⟨8, 2, 3, 3⟩ 9
      = ⟨8, 8, [[RENDERQUEUE.solid ⟨0, 0, 1, 1⟩ 5]]⟩ :=
  have h : ∀ px py : Int, (⟨8, 2, 3, 3⟩ : SDL_Rect).covers px py →
      ¬ (⟨8, 8, [[RENDERQUEUE.solid ⟨0, 0, 1, 1⟩ 5]]⟩ : SOFTWAREBUFFER).inBounds px py := by
    intro px py hc hb
    simp only [SDL_Rect.covers, SOFTWAREBUFFER.inBounds] at hc hb
    omega
  ⟨h, DrawQuad_outside_noop _ 0 ⟨8, 2, 3, 3⟩ 9 h⟩

/-- The cases named in C3, each of which leaves no common pixel: a rectangle of
non-positive size, or entirely left of, right of, above or below the buffer. -/
theorem DrawQuad_outside_cases (b : SOFTWAREBUFFER) (quad : SDL_Rect)
    (h : quad.w ≤ 0 ∨ quad.h ≤ 0 ∨ quad.x + quad.w ≤ 0 ∨ b.width ≤ quad.x ∨
      quad.y + quad.h ≤ 0 ∨ b.height ≤ quad.y) :
    ∀ px py : Int, quad.covers px py → ¬ b.inBounds px py := by
  intro px py hc hb
  simp only [SDL_Rect.covers, SOFTWAREBUFFER.inBounds] at hc hb
  omega

/-- C4: a DrawTexture call queues the entry built from its clipping; when the
destination is clipped only on the left edge (x < 0 and x + srcW <= width) the
destination starts at column 0 and is |x| narrower, and with xFlip the source
x is kept (so the source right edge moves left by |x|), while without xFlip
the source x grows by |x| and the source right edge srcX + w is unchanged. The
same holds for the top edge with y, the source height and yFlip. -/
theorem DrawTexture_near_edge_clip (b : SOFTWAREBUFFER) (textureAt : Ptr → TEXTURE)
    (texture palette : Ptr) (src : Option SDL_Rect) (layer : Nat) (x y : Int)
    (xFlip yFlip : Bool) :
    b.DrawTexture textureAt texture palette src layer x y xFlip yFlip =
      b.link layer (RENDERQUEUE.texture
        (clipTexture b.width b.height (sourceRect textureAt texture src) x y xFlip yFlip).dest
        (clipTexture b.width b.height (sourceRect textureAt texture src) x y xFlip yFlip).srcX
        (clipTexture b.width b.height (sourceRect textureAt texture src) x y xFlip yFlip).srcY
        palette texture xFlip yFlip) ∧
    (x < 0 → x + (sourceRect textureAt texture src).w ≤ b.width →
      (clipTexture b.width b.height (sourceRect textureAt texture src) x y xFlip yFlip).dest.x = 0 ∧
      (clipTexture b.width b.height (sourceRect textureAt texture src) x y xFlip yFlip).dest.w
        = (sourceRect textureAt texture src).w - |x| ∧
      (xFlip = true →
        (clipTexture b.width b.height (sourceRect textureAt texture src) x y xFlip yFlip).srcX
          = (sourceRect textureAt texture src).x ∧
        (clipTexture b.width b.height (sourceRect textureAt texture src) x y xFlip yFlip).srcX
          + (clipTexture b.width b.height (sourceRect textureAt texture src) x y xFlip yFlip).dest.w
          = (sourceRect textureAt texture src).x + (sourceRect textureAt texture src).w - |x|) ∧
      (xFlip = false →
        (clipTexture b.width b.height (sourceRect textureAt texture src) x y xFlip yFlip).srcX
          = (sourceRect textureAt texture src).x + |x| ∧
        (clipTexture b.width b.height (sourceRect textureAt texture src) x y xFlip yFlip).srcX
          + (clipTexture b.width b.height (sourceRect textureAt texture src) x y xFlip yFlip).dest.w
          = (sourceRect textureAt texture src).x + (sourceRect textureAt texture src).w)) ∧
    (y < 0 → y + (sourceRect textureAt texture src).h ≤ b.height →
      (clipTexture b.width b.height (sourceRect textureAt texture src) x y xFlip yFlip).dest.y = 0 ∧
      (clipTexture b.width b.height (sourceRect textureAt texture src) x y xFlip yFlip).dest.h
        = (sourceRect textureAt texture src).h - |y| ∧
      (yFlip = true →
        (clipTexture b.width b.height (sourceRect textureAt texture src) x y xFlip yFlip).srcY
          = (sourceRect textureAt texture src).y ∧
        (clipTexture b.width b.height (sourceRect textureAt texture src) x y xFlip yFlip).srcY
          + (clipTexture b.width b.height (sourceRect textureAt texture src) x y xFlip yFlip).dest.h
          = (sourceRect textureAt texture src).y + (sourceRect textureAt texture src).h - |y|) ∧
      (yFlip = false →
        (clipTexture b.width b.height (sourceRect textureAt texture src) x y xFlip yFlip).srcY
          = (sourceRect textureAt texture src).y + |y| ∧
        (clipTexture b.width b.height (sourceRect textureAt texture src) x y xFlip yFlip).srcY
          + (clipTexture b.width b.height (sourceRect textureAt texture src) x y xFlip yFlip).dest.h
          = (sourceRect textureAt texture src).y + (sourceRect textureAt texture src).h)) := by
  refine ⟨rfl, ?_, ?_⟩
  · intro hx hfit
    have habs : |x| = -x := abs_of_neg hx
    rw [habs]
    simp only [clipTexture]
    cases xFlip <;> simp <;> split_ifs <;> omega
  · intro hy hfit
    have habs : |y| = -y := abs_of_neg hy
    rw [habs]
    simp only [clipTexture]
    cases yFlip <;> simp <;> split_ifs <;> omega

/-- Witness of C4: a 4x4 source drawn at (-1,-3) into an 8x8 buffer, x-flipped
and not y-flipped. -/
theorem DrawTexture_near_edge_clip_witness :
    ((clipTexture 8 8 ⟨0, 0, 4, 4⟩ (-1) (-3) true false).dest.x = 0 ∧
      (clipTexture 8 8 ⟨0, 0, 4, 4⟩ (-1) (-3) true false).dest.w = 4 - |(-1 : Int)| ∧
      (clipTexture 8 8 ⟨0, 0, 4, 4⟩ (-1) (-3) true false).srcX = 0) ∧
    ((clipTexture 8 8 ⟨0, 0, 4, 4⟩ (-1) (-3) true false).dest.y = 0 ∧
      (clipTexture 8 8 ⟨0, 0, 4, 4⟩ (-1) (-3) true false).dest.h = 4 - |(-3 : Int)| ∧
      (clipTexture 8 8 ⟨0, 0, 4, 4⟩ (-1) (-3) true false).srcY = 0 + |(-3 : Int)|) :=
  have h := DrawTexture_near_edge_clip ⟨8, 8, [[]]⟩ (fun _ => ⟨[], 4, 4⟩) 1 2
    (some ⟨0, 0, 4, 4⟩) 0 (-1) (-3) true false
  have hx := h.2.1 (by decide) (by decide)
  have hy := h.2.2 (by decide) (by decide)
  ⟨⟨hx.1, hx.2.1, (hx.2.2.1 rfl).1⟩, ⟨hy.1, hy.2.1, (hy.2.2.2 rfl).1⟩⟩

/-- C10: with an unchanged packing format, RegenPaletteColour after
SetPaletteColour changes nothing: the packed value, the current r, g, b and
the original r, g, b are exactly as SetPaletteColour left them. -/
theorem RegenPaletteColour_SetPaletteColour {Fmt : Type} (SDL_MapRGB : MapRGB Fmt)
    (gNativeFormat : Fmt) (palColour : PALCOLOUR) (r g b : Fin 256) :
    RegenPaletteColour SDL_MapRGB gNativeFormat
        (SetPaletteColour SDL_MapRGB gNativeFormat palColour r g b)
      = SetPaletteColour SDL_MapRGB gNativeFormat palColour r g b := rfl

/-- What SetPaletteColour leaves in each field. -/
theorem SetPaletteColour_fields {Fmt : Type} (SDL_MapRGB : MapRGB Fmt)
    (gNativeFormat : Fmt) (palColour : PALCOLOUR) (r g b : Fin 256) :
    SetPaletteColour SDL_MapRGB gNativeFormat palColour r g b
      = ⟨SDL_MapRGB gNativeFormat r g b, r, g, b, r, g, b⟩ := rfl

/-- Setting a list cell that lies below the length to the empty list, for
every index below n, empties every cell below n. -/
theorem clearLayers_fold (n : Nat) (q : List (List RENDERQUEUE)) :
    ((List.range n).foldl (fun q i => q.set i []) q).length = q.length ∧
    ∀ i, i < n → ((List.range n).foldl (fun q i => q.set i []) q).getD i [] = [] := by
  induction n with
  | zero => exact ⟨rfl, fun i hi => absurd hi (Nat.not_lt_zero i)⟩
  | succ n ih =>
    rw [List.range_succ, List.foldl_append]
    simp only [List.foldl_cons, List.foldl_nil, List.length_set]
    refine ⟨ih.1, fun i hi => ?_⟩
    by_cases hin : i = n
    · subst hin
      by_cases hlen : i < ((List.range i).foldl (fun q i => q.set i []) q).length
      · simp [List.getD_eq_getElem?_getD, List.getElem?_set, hlen]
      · simp [List.getD_eq_getElem?_getD, List.getElem?_set, hlen]
    · have hlt : i < n := by omega
      have := ih.2 i hlt
      simp only [List.getD_eq_getElem?_getD] at this ⊢
      rw [List.getElem?_set_ne (Ne.symm hin)]
      exact this

/-- C8: when rasterization ran (the lock was acquired and the pixel depth is 1,
2 or 4 bytes), every layer of the queue is empty after RenderToScreen, whatever
the queue held and whether or not the copy to the renderer succeeds; the
number of layers is unchanged. -/
theorem RenderToScreen_clears_queue (b : SOFTWAREBUFFER) (mem : Memory) (FRAMERATE : ℚ)
    (env : RenderEnv) (vsyncMultiple : Nat) (timePrev : ℚ) (backgroundColour : Ptr)
    (hlock : env.lockOk = true)
    (hbpp : env.BytesPerPixel = 1 ∨ env.BytesPerPixel = 2 ∨ env.BytesPerPixel = 4) :
    (b.RenderToScreen mem FRAMERATE env vsyncMultiple timePrev backgroundColour).buffer.queue.length
      = b.queue.length ∧
    ∀ i, (b.RenderToScreen mem FRAMERATE env vsyncMultiple timePrev backgroundColour).buffer.layer i
      = [] := by
  have hq : (b.RenderToScreen mem FRAMERATE env vsyncMultiple timePrev backgroundColour).buffer
      = { b with queue := clearLayers b.queue } := by
    unfold SOFTWAREBUFFER.RenderToScreen
    simp only [hlock, hbpp, Bool.not_true, Bool.false_eq_true, if_false, not_true_eq_false,
      decide_True, decide_False]
    split_ifs <;> rfl
  rw [hq]
  have hfold := clearLayers_fold b.queue.length b.queue
  refine ⟨hfold.1, fun i => ?_⟩
  by_cases hi : i < b.queue.length
  · exact hfold.2 i hi
  · have hlen : (clearLayers b.queue).length ≤ i := by
      unfold clearLayers; rw [hfold.1]; omega
    simp [SOFTWAREBUFFER.layer, List.getD_eq_getElem?_getD, List.getElem?_eq_none hlen]

/-- Witness of C8: a two-layer queue holding three entries, a failing copy to
the renderer. -/
theorem RenderToScreen_clears_queue_witness :
    ((⟨8, 8, [[RENDERQUEUE.solid ⟨0, 0, 1, 1⟩ 5, RENDERQUEUE.solid ⟨1, 1, 2, 2⟩ 6],
        [RENDERQUEUE.texture ⟨0, 0, 2, 2⟩ 2 2 3 4 false false]]⟩ : SOFTWAREBUFFER).RenderToScreen
        ⟨fun _ => ⟨0, 0, 0, 0, 0, 0, 0⟩, fun _ => ⟨[]⟩, fun _ => ⟨[], 0, 0⟩⟩ 60
        ⟨true, 4, false, 1000⟩ 0 0 9).buffer.queue.length = 2 ∧
    ∀ i, ((⟨8, 8, [[RENDERQUEUE.solid ⟨0, 0, 1, 1⟩ 5, RENDERQUEUE.solid ⟨1, 1, 2, 2⟩ 6],
        [RENDERQUEUE.texture ⟨0, 0, 2, 2⟩ 2 2 3 4 false false]]⟩ : SOFTWAREBUFFER).RenderToScreen
        ⟨fun _ => ⟨0, 0, 0, 0, 0, 0, 0⟩, fun _ => ⟨[]⟩, fun _ => ⟨[], 0, 0⟩⟩ 60
        ⟨true, 4, false, 1000⟩ 0 0 9).buffer.layer i = [] :=
  RenderToScreen_clears_queue _ _ 60 ⟨true, 4, false, 1000⟩ 0 0 9 rfl (Or.inr (Or.inr rfl))

/-- The integral and fractional part of a whole number. -/
theorem modf_intCast (k : Int) : modf (k : ℚ) = (0, (k : ℚ)) := by
  unfold modf
  split_ifs <;> simp

/-- The fractional part is zero exactly when the argument is a whole number. -/
theorem modf_fst_eq_zero_iff (q : ℚ) : (modf q).1 = 0 ↔ ∃ k : Int, q = k := by
  unfold modf
  constructor
  · intro h
    simp only at h
    split_ifs at h
    · exact ⟨⌊q⌋, by linarith⟩
    · exact ⟨⌈q⌉, by linarith⟩
  · rintro ⟨k, rfl⟩
    split_ifs <;> simp

/-- Detection with a whole ratio: when the refresh rate is k times FRAMERATE
for a whole k >= 1 (below 2^32), vsyncMultiple becomes k, whatever it was. -/
theorem RenderCheckVSync_whole_ratio (FRAMERATE : Int) (vsyncMultiple : Nat) (k : Nat)
    (refreshOk : Bool) (hF : 0 < FRAMERATE) (hk : 1 ≤ k) (hk32 : k < 2 ^ 32) :
    (RenderCheckVSync FRAMERATE vsyncMultiple (some (k * FRAMERATE)) refreshOk).2 = k := by
  have hF0 : (FRAMERATE : ℚ) ≠ 0 := by exact_mod_cast hF.ne.symm
  have hq : (((k : Int) * FRAMERATE : Int) : ℚ) / (FRAMERATE : ℚ) = ((k : Int) : ℚ) := by
    push_cast
    field_simp
  have hk1 : (1 : ℚ) ≤ (k : ℚ) := by exact_mod_cast hk
  simp only [RenderCheckVSync, hq, modf_intCast]
  have hk32n : k < 4294967296 := by simpa using hk32
  simp [hk1, Nat.mod_eq_of_lt hk32n]

/-- Detection with a ratio that is not a whole number >= 1: the code has no
assignment on this path, so vsyncMultiple keeps the value it had. -/
theorem RenderCheckVSync_other_ratio (FRAMERATE : Int) (vsyncMultiple : Nat) (rate : Int)
    (refreshOk : Bool)
    (hnot : ¬ ∃ k : Int, 1 ≤ k ∧ (rate : ℚ) / (FRAMERATE : ℚ) = k) :
    (RenderCheckVSync FRAMERATE vsyncMultiple (some rate) refreshOk).2 = vsyncMultiple := by
  simp only [RenderCheckVSync]
  split_ifs with h
  · exfalso
    obtain ⟨hge, hfrac⟩ := h
    obtain ⟨k, hk⟩ := (modf_fst_eq_zero_iff _).1 hfrac
    apply hnot
    refine ⟨k, ?_, hk⟩
    rw [hk, modf_intCast] at hge
    have hge1 : (1 : ℚ) ≤ (k : ℚ) := hge
    exact_mod_cast hge1
  · rfl

/-- Witness of the whole-ratio case: 120 Hz at a 60 Hz target gives 2. -/
theorem RenderCheckVSync_whole_ratio_witness :
    (RenderCheckVSync 60 0 (some ((2 : Nat) * 60)) true).2 = 2 :=
  RenderCheckVSync_whole_ratio 60 0 2 true (by decide) (by decide) (by decide)

/-- C9, the run that departs from it: with a 60 Hz target and the state Paced
with multiple 2 (as left by a detection at 120 Hz), a detection at 144 Hz
leaves vsyncMultiple at 2; the claim requires 0 (Unpaced). From the state
Unpaced the same detection gives 0, and 120 Hz gives 2 from either state. -/
theorem RenderCheckVSync_keeps_stale_multiple :
    RenderCheckVSync 60 2 (some 144) true = (true, 2) ∧
    RenderCheckVSync 60 0 (some 144) true = (true, 0) ∧
    RenderCheckVSync 60 0 (some 120) true = (true, 2) ∧
    RenderCheckVSync 60 2 (some 120) true = (true, 2) := by
  refine ⟨?_, ?_, ?_, ?_⟩ <;> simp [RenderCheckVSync, modf] <;> norm_num <;> decide

/-! ### The compositor -/

/-- Linking keeps the number of layers. -/
theorem link_length (b : SOFTWAREBUFFER) (layer : Nat) (e : RENDERQUEUE) :
    (b.link layer e).queue.length = b.queue.length := by
  simp [SOFTWAREBUFFER.link]

/-- Linking puts the new entry at the head of its layer. -/
theorem link_layer_self (b : SOFTWAREBUFFER) (layer : Nat) (e : RENDERQUEUE)
    (h : layer < b.queue.length) : (b.link layer e).layer layer = e :: b.layer layer := by
  simp [SOFTWAREBUFFER.link, SOFTWAREBUFFER.layer, List.getD_eq_getElem?_getD, h]

/-- Linking leaves the other layers alone. -/
theorem link_layer_other (b : SOFTWAREBUFFER) (layer k : Nat) (e : RENDERQUEUE)
    (h : layer ≠ k) : (b.link layer e).layer k = b.layer k := by
  simp [SOFTWAREBUFFER.link, SOFTWAREBUFFER.layer, List.getD_eq_getElem?_getD,
    List.getElem?_set_ne h]

/-- Entries that do not cover a pixel leave it as it was. -/
theorem blitLayer_not_covered (mem : Memory) (entries : List RENDERQUEUE) (fb : Frame)
    (px py : Int) (h : ∀ e ∈ entries, ¬ e.dest.covers px py) :
    blitLayer mem entries fb px py = fb px py := by
  induction entries generalizing fb with
  | nil => rfl
  | cons e rest ih =>
    have hrest : ∀ e ∈ rest, ¬ e.dest.covers px py :=
      fun e he => h e (List.mem_cons_of_mem _ he)
    have he : ¬ e.dest.covers px py := h e (List.mem_cons_self _ _)
    show blitLayer mem rest (blitEntry mem e fb) px py = fb px py
    rw [ih _ hrest]
    simp [blitEntry, he]

/-- Layers none of whose entries covers a pixel leave it as it was. -/
theorem blitLayers_not_covered (mem : Memory) (layers : List (List RENDERQUEUE)) (fb : Frame)
    (px py : Int) (h : ∀ l ∈ layers, ∀ e ∈ l, ¬ e.dest.covers px py) :
    layers.foldl (fun fb entries => blitLayer mem entries fb) fb px py = fb px py := by
  induction layers generalizing fb with
  | nil => rfl
  | cons l rest ih =>
    rw [List.foldl_cons, ih _ (fun l' hl' => h l' (List.mem_cons_of_mem _ hl'))]
    exact blitLayer_not_covered mem l fb px py (h l (List.mem_cons_self _ _))

/-- The value of a pixel is decided in layer j when no entry of a higher
layer covers it: it is what layer j makes of the frame of the layers below. -/
theorem Blit_top_layer (mem : Memory) (backgroundColour : Ptr)
    (queue : List (List RENDERQUEUE)) (j : Nat) (px py : Int) (hj : j < queue.length)
    (hclear : ∀ k, j < k → ∀ e ∈ queue.getD k [], ¬ e.dest.covers px py) :
    Blit mem backgroundColour queue px py
      = blitLayer mem (queue.getD j []) (Blit mem backgroundColour (queue.take j)) px py := by
  have hsplit : queue = queue.take j ++ queue.getD j [] :: queue.drop (j + 1) := by
    have h1 : queue.getD j [] = queue[j] := by
      simp [List.getD_eq_getElem?_getD, List.getElem?_eq_getElem hj]
    rw [h1, ← List.drop_eq_getElem_cons hj, List.take_append_drop]
  have hpost : ∀ l ∈ queue.drop (j + 1), ∀ e ∈ l, ¬ e.dest.covers px py := by
    intro l hl e he
    obtain ⟨n, hn, rfl⟩ := List.getElem_of_mem hl
    rw [List.getElem_drop] at he
    have hlt : j + 1 + n < queue.length := by
      rw [List.length_drop] at hn; omega
    apply hclear (j + 1 + n) (by omega) e
    simpa [List.getD_eq_getElem?_getD, List.getElem?_eq_getElem hlt] using he
  unfold Blit
  conv_lhs => rw [hsplit]
  rw [List.foldl_append, List.foldl_cons]
  exact blitLayers_not_covered mem _ _ px py hpost

/-- C7: an entry eA submitted on a layer i and an entry eB submitted on a
higher layer j (in particular i = 0 and j = 1), in either order: at every
pixel that eB covers, so at every pixel both cover, the composited value is
the value of eB, provided no entry queued before on layer j or above covers
that pixel (as when the frame starts with an empty queue). -/
theorem Blit_higher_layer_wins (b : SOFTWAREBUFFER) (mem : Memory) (backgroundColour : Ptr)
    (i j : Nat) (eA eB : RENDERQUEUE) (px py : Int)
    (hij : i < j) (hj : j < b.queue.length)
    (hB : eB.dest.covers px py)
    (hclear : ∀ k, j ≤ k → ∀ e ∈ b.layer k, ¬ e.dest.covers px py) :
    Blit mem backgroundColour ((b.link i eA).link j eB).queue px py = entryValue mem eB px py ∧
    Blit mem backgroundColour ((b.link j eB).link i eA).queue px py = entryValue mem eB px py := by
  have hne : i ≠ j := Nat.ne_of_lt hij
  have key : ∀ b2 : SOFTWAREBUFFER, b2.queue.length = b.queue.length →
      b2.layer j = eB :: b.layer j → (∀ k, j < k → b2.layer k = b.layer k) →
      Blit mem backgroundColour b2.queue px py = entryValue mem eB px py := by
    intro b2 hlen hlayer hup
    rw [Blit_top_layer mem backgroundColour b2.queue j px py (by omega)]
    · have h2 : b2.queue.getD j [] = eB :: b.layer j := hlayer
      rw [h2]
      show blitLayer mem (b.layer j) (blitEntry mem eB _) px py = _
      rw [blitLayer_not_covered mem _ _ px py (hclear j (Nat.le_refl j))]
      simp [blitEntry, hB]
    · intro k hk e he
      have h3 : b2.queue.getD k [] = b.layer k := hup k hk
      rw [h3] at he
      exact hclear k (Nat.le_of_lt hk) e he
  constructor
  · apply key
    · rw [link_length, link_length]
    · rw [link_layer_self _ _ _ (by rw [link_length]; exact hj), link_layer_other _ _ _ _ hne]
    · intro k hk
      rw [link_layer_other _ _ _ _ (by omega), link_layer_other _ _ _ _ (by omega)]
  · apply key
    · rw [link_length, link_length]
    · rw [link_layer_other _ _ _ _ hne, link_layer_self _ _ _ hj]
    · intro k hk
      rw [link_layer_other _ _ _ _ (by omega), link_layer_other _ _ _ _ (by omega)]

/-- Witness of C7: in an 8x8 buffer with two empty layers, the rectangle
(0,0,4,4) with colour 11 on layer 0 and (2,2,4,4) with colour 22 on layer 1;
the packed value of a colour is its address; the pixel (2,2). -/
theorem Blit_higher_layer_wins_witness :
    Blit ⟨fun c => ⟨c, 0, 0, 0, 0, 0, 0⟩, fun _ => ⟨[]⟩, fun _ => ⟨[], 0, 0⟩⟩ 0
        (((⟨8, 8, [[], []]⟩ : SOFTWAREBUFFER).DrawQuad 0 ⟨0, 0, 4, 4⟩ 11).DrawQuad 1
          ⟨2, 2, 4, 4⟩ 22).queue 2 2 = 22 ∧
    Blit ⟨fun c => ⟨c, 0, 0, 0, 0, 0, 0⟩, fun _ => ⟨[]⟩, fun _ => ⟨[], 0, 0⟩⟩ 0
        (((⟨8, 8, [[], []]⟩ : SOFTWAREBUFFER).DrawQuad 1 ⟨2, 2, 4, 4⟩ 22).DrawQuad 0
          ⟨0, 0, 4, 4⟩ 11).queue 2 2 = 22 :=
  Blit_higher_layer_wins ⟨8, 8, [[], []]⟩
    ⟨fun c => ⟨c, 0, 0, 0, 0, 0, 0⟩, fun _ => ⟨[]⟩, fun _ => ⟨[], 0, 0⟩⟩ 0 0 1
    (RENDERQUEUE.solid ⟨0, 0, 4, 4⟩ 11) (RENDERQUEUE.solid ⟨2, 2, 4, 4⟩ 22) 2 2
    (by decide) (by decide) (by decide)
    (by
      intro k _ e he
      rcases k with _ | _ | k <;> simp [SOFTWAREBUFFER.layer] at he)

/-- A rectangle that covers a pixel after clipping is not dropped: DrawQuad
links it. -/
theorem DrawQuad_of_covers (b : SOFTWAREBUFFER) (layer : Nat) (quad : SDL_Rect) (colour : Ptr)
    (px py : Int) (h : (clipQuad b.width b.height quad).covers px py) :
    b.DrawQuad layer quad colour
      = b.link layer (RENDERQUEUE.solid (clipQuad b.width b.height quad) colour) := by
  rw [DrawQuad_eq]
  have hpos : ¬ ((clipQuad b.width b.height quad).w ≤ 0 ∨
      (clipQuad b.width b.height quad).h ≤ 0) := by
    unfold SDL_Rect.covers at h
    omega
  simp only [hpos, if_false]

/-- C6 as amended: two solid rectangles submitted to the same layer, A and
then B. B is linked in front of A, the list is rasterized from its head, so A
is written after B: at every pixel that the clipped A covers, so at every
pixel both cover, the composited value is the colour of A (the entry submitted
first), provided no entry queued before on that layer or above covers the
pixel. -/
theorem Blit_same_layer_first_submitted_wins (b : SOFTWAREBUFFER) (mem : Memory)
    (backgroundColour : Ptr) (layer : Nat) (A B : SDL_Rect) (cA cB : Ptr) (px py : Int)
    (hl : layer < b.queue.length)
    (hA : (clipQuad b.width b.height A).covers px py)
    (hB : (clipQuad b.width b.height B).covers px py)
    (hclear : ∀ k, layer ≤ k → ∀ e ∈ b.layer k, ¬ e.dest.covers px py) :
    ((b.DrawQuad layer A cA).DrawQuad layer B cB).layer layer
      = RENDERQUEUE.solid (clipQuad b.width b.height B) cB
        :: RENDERQUEUE.solid (clipQuad b.width b.height A) cA :: b.layer layer ∧
    Blit mem backgroundColour ((b.DrawQuad layer A cA).DrawQuad layer B cB).queue px py
      = (mem.colourAt cA).colour := by
  have h1 : b.DrawQuad layer A cA
      = b.link layer (RENDERQUEUE.solid (clipQuad b.width b.height A) cA) :=
    DrawQuad_of_covers b layer A cA px py hA
  have h2 : (b.link layer (RENDERQUEUE.solid (clipQuad b.width b.height A) cA)).DrawQuad layer B cB
      = (b.link layer (RENDERQUEUE.solid (clipQuad b.width b.height A) cA)).link layer
          (RENDERQUEUE.solid (clipQuad b.width b.height B) cB) :=
    DrawQuad_of_covers _ layer B cB px py hB
  rw [h1, h2]
  have hlist : ((b.link layer (RENDERQUEUE.solid (clipQuad b.width b.height A) cA)).link layer
      (RENDERQUEUE.solid (clipQuad b.width b.height B) cB)).layer layer
      = RENDERQUEUE.solid (clipQuad b.width b.height B) cB
        :: RENDERQUEUE.solid (clipQuad b.width b.height A) cA :: b.layer layer := by
    rw [link_layer_self _ _ _ (by rw [link_length]; exact hl), link_layer_self _ _ _ hl]
  refine ⟨hlist, ?_⟩
  rw [Blit_top_layer mem backgroundColour _ layer px py (by rw [link_length, link_length]; exact hl)]
  · have hq : ((b.link layer (RENDERQUEUE.solid (clipQuad b.width b.height A) cA)).link layer
        (RENDERQUEUE.solid (clipQuad b.width b.height B) cB)).queue.getD layer []
        = RENDERQUEUE.solid (clipQuad b.width b.height B) cB
          :: RENDERQUEUE.solid (clipQuad b.width b.height A) cA :: b.layer layer := hlist
    rw [hq]
    show blitLayer mem (b.layer layer) (blitEntry mem _ (blitEntry mem _ _)) px py = _
    rw [blitLayer_not_covered mem _ _ px py (hclear layer (Nat.le_refl layer))]
    have hA2 : (RENDERQUEUE.solid (clipQuad b.width b.height A) cA).dest.covers px py := hA
    simp [blitEntry, hA2, entryValue]
  · intro k hk e he
    have h3 : ((b.link layer (RENDERQUEUE.solid (clipQuad b.width b.height A) cA)).link layer
        (RENDERQUEUE.solid (clipQuad b.width b.height B) cB)).layer k = b.layer k := by
      rw [link_layer_other _ _ _ _ (by omega), link_layer_other _ _ _ _ (by omega)]
    have he2 : e ∈ b.layer k := by rw [← h3]; exact he
    exact hclear k (Nat.le_of_lt hk) e he2

/-- Witness of the amended C6: an 8x8 buffer with one empty layer, A = (0,0,4,4)
with colour 11, then B = (2,2,4,4) with colour 22, the pixel (2,2). -/
theorem Blit_same_layer_first_submitted_wins_witness :
    (((⟨8, 8, [[]]⟩ : SOFTWAREBUFFER).DrawQuad 0 ⟨0, 0, 4, 4⟩ 11).DrawQuad 0
        ⟨2, 2, 4, 4⟩ 22).layer 0
      = [RENDERQUEUE.solid ⟨2, 2, 4, 4⟩ 22, RENDERQUEUE.solid ⟨0, 0, 4, 4⟩ 11] ∧
    Blit ⟨fun c => ⟨c, 0, 0, 0, 0, 0, 0⟩, fun _ => ⟨[]⟩, fun _ => ⟨[], 0, 0⟩⟩ 0
        (((⟨8, 8, [[]]⟩ : SOFTWAREBUFFER).DrawQuad 0 ⟨0, 0, 4, 4⟩ 11).DrawQuad 0
          ⟨2, 2, 4, 4⟩ 22).queue 2 2 = 11 :=
  Blit_same_layer_first_submitted_wins ⟨8, 8, [[]]⟩
    ⟨fun c => ⟨c, 0, 0, 0, 0, 0, 0⟩, fun _ => ⟨[]⟩, fun _ => ⟨[], 0, 0⟩⟩ 0 0
    ⟨0, 0, 4, 4⟩ ⟨2, 2, 4, 4⟩ 11 22 2 2 (by decide) (by decide) (by decide)
    (by
      intro k _ e he
      rcases k with _ | k <;> simp [SOFTWAREBUFFER.layer] at he)

/-- C6 as stated fails: in an 8x8 buffer with one empty layer, A = (0,0,4,4)
with colour 11 is submitted, then B = (2,2,4,4) with colour 22. Both queued
entries cover the pixel (2,2), and its composited value is the colour of A, not
the colour of B. -/
theorem Blit_same_layer_last_submitted_loses :
    (clipQuad 8 8 ⟨0, 0, 4, 4⟩).covers 2 2 ∧ (clipQuad 8 8 ⟨2, 2, 4, 4⟩).covers 2 2 ∧
    Blit ⟨fun c => ⟨c, 0, 0, 0, 0, 0, 0⟩, fun _ => ⟨[]⟩, fun _ => ⟨[], 0, 0⟩⟩ 0
        (((⟨8, 8, [[]]⟩ : SOFTWAREBUFFER).DrawQuad 0 ⟨0, 0, 4, 4⟩ 11).DrawQuad 0
          ⟨2, 2, 4, 4⟩ 22).queue 2 2 = 11 ∧
    Blit ⟨fun c => ⟨c, 0, 0, 0, 0, 0, 0⟩, fun _ => ⟨[]⟩, fun _ => ⟨[], 0, 0⟩⟩ 0
        (((⟨8, 8, [[]]⟩ : SOFTWAREBUFFER).DrawQuad 0 ⟨0, 0, 4, 4⟩ 11).DrawQuad 0
          ⟨2, 2, 4, 4⟩ 22).queue 2 2
      ≠ (PALCOLOUR.mk 22 0 0 0 0 0 0).colour := by
  decide

/-- C5: a 4x4 texture, drawn whole and unflipped at (-2,-2) on layer 0 of an
8x8 buffer whose layers are empty, queues one entry with destination
rectangle (0,0,2,2) and source origin (2,2). Rasterized, the pixel (px, py) of
the region 0 <= px, py < 2 shows the texture pixel (px + 2, py + 2), the
bottom-right 2x2 block, through the palette of the call, and every other pixel
keeps the background colour. -/
theorem DrawTexture_scenario_4x4 (mem : Memory) (texture palette backgroundColour : Ptr)
    (n : Nat) (pixels : List Nat) (htex : mem.textureAt texture = ⟨pixels, 4, 4⟩) :
    (⟨8, 8, List.replicate (n + 1) []⟩ : SOFTWAREBUFFER).DrawTexture mem.textureAt texture
        palette none 0 (-2) (-2) false false
      = ⟨8, 8, [RENDERQUEUE.texture ⟨0, 0, 2, 2⟩ 2 2 palette texture false false]
          :: List.replicate n []⟩ ∧
    ∀ px py : Int,
      Blit mem backgroundColour
          ((⟨8, 8, List.replicate (n + 1) []⟩ : SOFTWAREBUFFER).DrawTexture mem.textureAt
            texture palette none 0 (-2) (-2) false false).queue px py
        = if 0 ≤ px ∧ px < 2 ∧ 0 ≤ py ∧ py < 2 then
            ((mem.paletteAt palette).colour.getD
              (pixels.getD ((py + 2) * 4 + (px + 2)).toNat 0) ⟨0, 0, 0, 0, 0, 0, 0⟩).colour
          else (mem.colourAt backgroundColour).colour := by
  have hq : (⟨8, 8, List.replicate (n + 1) []⟩ : SOFTWAREBUFFER).DrawTexture mem.textureAt
      texture palette none 0 (-2) (-2) false false
      = ⟨8, 8, [RENDERQUEUE.texture ⟨0, 0, 2, 2⟩ 2 2 palette texture false false]
          :: List.replicate n []⟩ := by
    simp only [SOFTWAREBUFFER.DrawTexture, sourceRect, htex, SOFTWAREBUFFER.link,
      SOFTWAREBUFFER.layer, List.replicate_succ, List.set_cons_zero, List.getD_cons_zero]
    rfl
  refine ⟨hq, fun px py => ?_⟩
  rw [hq]
  have hrest : ∀ l ∈ List.replicate n ([] : List RENDERQUEUE), ∀ e ∈ l,
      ¬ e.dest.covers px py := by
    intro l hl e he
    rw [List.eq_of_mem_replicate hl] at he
    exact absurd he (List.not_mem_nil e)
  show (List.replicate n []).foldl (fun fb entries => blitLayer mem entries fb)
      (blitLayer mem [RENDERQUEUE.texture ⟨0, 0, 2, 2⟩ 2 2 palette texture false false]
        (fun _ _ => (mem.colourAt backgroundColour).colour)) px py = _
  rw [blitLayers_not_covered mem _ _ px py hrest]
  simp only [blitLayer, List.foldl_cons, List.foldl_nil, blitEntry, RENDERQUEUE.dest,
    SDL_Rect.covers, entryValue, htex]
  have hc : (0 ≤ px ∧ px < 0 + 2 ∧ 0 ≤ py ∧ py < 0 + 2) ↔ (0 ≤ px ∧ px < 2 ∧ 0 ≤ py ∧ py < 2) := by
    omega
  have hidx : (2 + (py - 0)) * 4 + (2 + (px - 0)) = (py + 2) * 4 + (px + 2) := by ring
  simp only [hc, Bool.false_eq_true, if_false, hidx]

/-- Witness of C5: the texture pixels are 0 to 15 in row order, palette entry i
has the packed value 100 + i, the background has the packed value 7. -/
theorem DrawTexture_scenario_4x4_witness :
    (⟨8, 8, List.replicate (0 + 1) []⟩ : SOFTWAREBUFFER).DrawTexture
        (fun _ => ⟨List.range 16, 4, 4⟩) 1 2 none 0 (-2) (-2) false false
      = ⟨8, 8, [RENDERQUEUE.texture ⟨0, 0, 2, 2⟩ 2 2 2 1 false false] :: List.replicate 0 []⟩ ∧
    ∀ px py : Int,
      Blit ⟨fun _ => ⟨7, 0, 0, 0, 0, 0, 0⟩,
            fun _ => ⟨(List.range 256).map (fun i => ⟨100 + i, 0, 0, 0, 0, 0, 0⟩)⟩,
            fun _ => ⟨List.range 16, 4, 4⟩⟩ 3
          ((⟨8, 8, List.replicate (0 + 1) []⟩ : SOFTWAREBUFFER).DrawTexture
            (fun _ => ⟨List.range 16, 4, 4⟩) 1 2 none 0 (-2) (-2) false false).queue px py
        = if 0 ≤ px ∧ px < 2 ∧ 0 ≤ py ∧ py < 2 then
            (((List.range 256).map (fun i => (⟨100 + i, 0, 0, 0, 0, 0, 0⟩ : PALCOLOUR))).getD
              ((List.range 16).getD ((py + 2) * 4 + (px + 2)).toNat 0)
              ⟨0, 0, 0, 0, 0, 0, 0⟩).colour
          else 7 :=
  DrawTexture_scenario_4x4
    ⟨fun _ => ⟨7, 0, 0, 0, 0, 0, 0⟩,
     fun _ => ⟨(List.range 256).map (fun i => ⟨100 + i, 0, 0, 0, 0, 0, 0⟩)⟩,
     fun _ => ⟨List.range 16, 4, 4⟩⟩ 1 2 3 0 (List.range 16) rfl

/-- The four pixels of the scenario of C5 evaluated: with texture pixels 0 to 15
in row order and palette entry i packed as 100 + i, the region shows the
texture pixels 10, 11, 14 and 15, and the pixel (2,0) is background. -/
theorem DrawTexture_scenario_4x4_pixels :
    (fun px py => Blit ⟨fun _ => ⟨7, 0, 0, 0, 0, 0, 0⟩,
            fun _ => ⟨(List.range 256).map (fun i => ⟨100 + i, 0, 0, 0, 0, 0, 0⟩)⟩,
            fun _ => ⟨List.range 16, 4, 4⟩⟩ 3
          ((⟨8, 8, [[]]⟩ : SOFTWAREBUFFER).DrawTexture
            (fun _ => ⟨List.range 16, 4, 4⟩) 1 2 none 0 (-2) (-2) false false).queue px py)
      = (fun px py => Blit ⟨fun _ => ⟨7, 0, 0, 0, 0, 0, 0⟩,
            fun _ => ⟨(List.range 256).map (fun i => ⟨100 + i, 0, 0, 0, 0, 0, 0⟩)⟩,
            fun _ => ⟨List.range 16, 4, 4⟩⟩ 3
          [[RENDERQUEUE.texture ⟨0, 0, 2, 2⟩ 2 2 2 1 false false]] px py) ∧
    [(0, 0), (1, 0), (0, 1), (1, 1), (2, 0)].map (fun p : Int × Int =>
        Blit ⟨fun _ => ⟨7, 0, 0, 0, 0, 0, 0⟩,
            fun _ => ⟨(List.range 256).map (fun i => ⟨100 + i, 0, 0, 0, 0, 0, 0⟩)⟩,
            fun _ => ⟨List.range 16, 4, 4⟩⟩ 3
          [[RENDERQUEUE.texture ⟨0, 0, 2, 2⟩ 2 2 2 1 false false]] p.1 p.2)
      = [110, 111, 114, 115, 7] := by
  constructor
  · rfl
  · decide

/-! ### The destructor of TEXTURE -/

/-- A freed node cannot be read when freed reads are faults. -/
theorem read_after_delete (m m2 : QueueMem) (a : Ptr) (h : m.delete a = .ok m2) :
    m2.read false a = .error Fault.useAfterFree := by
  unfold QueueMem.delete at h
  split at h
  · rename_i n hn
    injection h with h
    subst h
    have hlt : a < m.heap.length := by
      by_contra hge
      have hle : m.heap.length ≤ a := Nat.le_of_not_lt hge
      rw [List.getElem?_eq_none hle] at hn
      exact Option.noConfusion hn
    simp [QueueMem.read, List.getElem?_set, hlt]
  · exact Except.noConfusion h
  · exact Except.noConfusion h

/-- A run of the loop body that does not fault under the strict reading either
found an entry that does not reference the texture and changed nothing, or
deleted the entry. -/
theorem removeIfReferencing_ok (this : Ptr) (i inner : Nat) (m m2 : QueueMem) (entry : Ptr)
    (h : removeIfReferencing false this i inner m entry = .ok m2) :
    (m2 = m ∧ ∃ n, m.read false entry = .ok n ∧ n.entry.references this = false) ∨
    m2.read false entry = .error Fault.useAfterFree := by
  unfold removeIfReferencing at h
  split at h
  · exact Except.noConfusion h
  · rename_i n hn
    split at h
    · right
      split at h
      · exact Except.noConfusion h
      · exact read_after_delete _ _ _ h
    · rename_i href
      left
      injection h with h
      exact ⟨h.symm, n, hn, by simpa using href⟩

/-- Under the strict reading, a walk over a layer that does not fault has
removed nothing. -/
theorem scanLayer_strict_ok (this : Ptr) (i inner fuel : Nat) (m m2 : QueueMem)
    (entry : Option Ptr) (h : scanLayer false this i inner fuel m entry = .ok m2) : m2 = m := by
  induction fuel generalizing m entry with
  | zero => exact Except.noConfusion h
  | succ fuel ih =>
    cases entry with
    | none =>
      injection h with h
      exact h.symm
    | some e =>
      unfold scanLayer at h
      split at h
      · exact Except.noConfusion h
      · rename_i m1 hm1
        rcases removeIfReferencing_ok this i inner m m1 e hm1 with ⟨hsame, _⟩ | hfreed
        · subst hsame
          split at h
          · exact Except.noConfusion h
          · exact ih _ _ h
        · rw [hfreed] at h
          exact Except.noConfusion h

/-- Under the strict reading, a run of the destructor that does not fault has
removed nothing: whenever an entry is removed, the step `entry = entry->next`
that follows reads the deleted node. -/
theorem destructor_strict_ok (fuel this : Nat) (m m2 : QueueMem)
    (h : TEXTURE.destructor false fuel this m = .ok m2) : m2 = m := by
  unfold TEXTURE.destructor at h
  generalize m.queue.length = layers at h
  generalize (0 : Nat) = i at h
  induction layers generalizing i m with
  | zero =>
    injection h with h
    exact h.symm
  | succ layers ih =>
    unfold scanLayers at h
    split at h
    · exact Except.noConfusion h
    · split at h
      · exact Except.noConfusion h
      · rename_i m1 hm1
        have h1 : m1 = m := scanLayer_strict_ok this i fuel fuel m m1 _ hm1
        subst h1
        exact ih _ _ h

/-- C1, the run that departs from it: the queue has two layers, layer 0 holds
one textured entry of texture 7 in the node at address 0. The destructor of
texture 7 unlinks and deletes the node and then reads its `next` field for the
loop step: with freed reads as faults, every run with fuel is a use after
free. When the freed node still holds its bytes, the run ends with both layers
empty; so it does for two adjacent entries of texture 7 in front of a solid
entry, which is kept. -/
theorem destructor_reads_deleted_entry :
    (∀ fuel : Nat, TEXTURE.destructor false (fuel + 1) 7
        ⟨[Cell.live ⟨RENDERQUEUE.texture ⟨0, 0, 2, 2⟩ 0 0 3 7 false false, none⟩],
          [some 0, none]⟩ = .error Fault.useAfterFree) ∧
    TEXTURE.destructor true 2 7
        ⟨[Cell.live ⟨RENDERQUEUE.texture ⟨0, 0, 2, 2⟩ 0 0 3 7 false false, none⟩],
          [some 0, none]⟩
      = .ok ⟨[Cell.freed ⟨RENDERQUEUE.texture ⟨0, 0, 2, 2⟩ 0 0 3 7 false false, none⟩],
          [none, none]⟩ ∧
    (TEXTURE.destructor true 4 7
        ⟨[Cell.live ⟨RENDERQUEUE.texture ⟨0, 0, 2, 2⟩ 0 0 3 7 false false, some 1⟩,
          Cell.live ⟨RENDERQUEUE.texture ⟨1, 1, 2, 2⟩ 0 0 3 7 true false, some 2⟩,
          Cell.live ⟨RENDERQUEUE.solid ⟨0, 0, 1, 1⟩ 5, none⟩],
          [some 0, none]⟩).map QueueMem.layers
      = .ok [[RENDERQUEUE.solid ⟨0, 0, 1, 1⟩ 5], []] := by
  refine ⟨fun fuel => ?_, ?_, ?_⟩
  · cases fuel <;> rfl
  · rfl
  · rfl

/-! ### Palette writes and queue submission -/

/-- C11: ModifyPaletteColour sets the current r, g, b to its arguments and the
packed value to the packing of (r, g, b), and leaves the originals ogr, ogg,
ogb as they were; SetPaletteColour sets the same fields and the originals
too. -/
theorem ModifyPaletteColour_keeps_originals {Fmt : Type} (SDL_MapRGB : MapRGB Fmt)
    (gNativeFormat : Fmt) (palColour : PALCOLOUR) (r g b : Fin 256) :
    ModifyPaletteColour SDL_MapRGB gNativeFormat palColour r g b
      = ⟨SDL_MapRGB gNativeFormat r g b, r, g, b, palColour.ogr, palColour.ogg, palColour.ogb⟩ ∧
    SetPaletteColour SDL_MapRGB gNativeFormat palColour r g b
      = ⟨SDL_MapRGB gNativeFormat r g b, r, g, b, r, g, b⟩ :=
  ⟨rfl, rfl⟩

/-- DrawTexture never changes the dimensions of the buffer or the number of
layers. -/
theorem DrawTexture_frame (b : SOFTWAREBUFFER) (textureAt : Ptr → TEXTURE)
    (texture palette : Ptr) (src : Option SDL_Rect) (layer : Nat) (x y : Int)
    (xFlip yFlip : Bool) :
    (b.DrawTexture textureAt texture palette src layer x y xFlip yFlip).width = b.width ∧
    (b.DrawTexture textureAt texture palette src layer x y xFlip yFlip).height = b.height ∧
    (b.DrawTexture textureAt texture palette src layer x y xFlip yFlip).queue.length
      = b.queue.length :=
  ⟨rfl, rfl, link_length _ _ _⟩

/-- C12: every DrawTexture call on a layer of the queue puts exactly one
textured entry at the head of that layer and leaves the other layers as they
were; there is no test of the clipped size, so this holds when the clipped
width or height is not positive. The entry has the destination origin of the
clipping, the clipped source width and height as its destination size (the
source size, plus x when x < 0, minus the overhang past the right or bottom
edge), and the texture, palette and flip flags of the call. -/
theorem DrawTexture_always_links (b : SOFTWAREBUFFER) (textureAt : Ptr → TEXTURE)
    (texture palette : Ptr) (src : Option SDL_Rect) (layer : Nat) (x y : Int)
    (xFlip yFlip : Bool) (hl : layer < b.queue.length) :
    (b.DrawTexture textureAt texture palette src layer x y xFlip yFlip).layer layer
      = RENDERQUEUE.texture
          (clipTexture b.width b.height (sourceRect textureAt texture src) x y xFlip yFlip).dest
          (clipTexture b.width b.height (sourceRect textureAt texture src) x y xFlip yFlip).srcX
          (clipTexture b.width b.height (sourceRect textureAt texture src) x y xFlip yFlip).srcY
          palette texture xFlip yFlip :: b.layer layer ∧
    (∀ k, k ≠ layer →
      (b.DrawTexture textureAt texture palette src layer x y xFlip yFlip).layer k = b.layer k) ∧
    (clipTexture b.width b.height (sourceRect textureAt texture src) x y xFlip yFlip).dest.w
      = (if x < 0 then (sourceRect textureAt texture src).w + x
          else (sourceRect textureAt texture src).w)
        - max 0 ((if x < 0 then 0 else x)
            + (if x < 0 then (sourceRect textureAt texture src).w + x
                else (sourceRect textureAt texture src).w) - b.width) ∧
    (clipTexture b.width b.height (sourceRect textureAt texture src) x y xFlip yFlip).dest.h
      = (if y < 0 then (sourceRect textureAt texture src).h + y
          else (sourceRect textureAt texture src).h)
        - max 0 ((if y < 0 then 0 else y)
            + (if y < 0 then (sourceRect textureAt texture src).h + y
                else (sourceRect textureAt texture src).h) - b.height) := by
  refine ⟨link_layer_self _ _ _ hl, fun k hk => link_layer_other _ _ _ _ (Ne.symm hk), ?_, ?_⟩
  · simp only [clipTexture]
    split_ifs <;> omega
  · simp only [clipTexture]
    split_ifs <;> omega

/-- Witness of C12: a 4x4 source drawn at (-10, 9) into an 8x8 buffer: the
clipped size is (-6) x (-1) and the entry is queued all the same. -/
theorem DrawTexture_always_links_witness :
    ((⟨8, 8, [[RENDERQUEUE.solid ⟨0, 0, 1, 1⟩ 5], []]⟩ : SOFTWAREBUFFER).DrawTexture
        (fun _ => ⟨[], 4, 4⟩) 1 2 none 0 (-10) 9 false true).layer 0
      = [RENDERQUEUE.texture ⟨0, 9, -6, -1⟩ 10 5 2 1 false true,
          RENDERQUEUE.solid ⟨0, 0, 1, 1⟩ 5] :=
  (DrawTexture_always_links ⟨8, 8, [[RENDERQUEUE.solid ⟨0, 0, 1, 1⟩ 5], []]⟩
    (fun _ => ⟨[], 4, 4⟩) 1 2 none 0 (-10) 9 false true (by decide)).1

/-- C13: DrawPoint leaves the buffer, hence the queue, unchanged when x < 0,
x >= width, y < 0 or y >= height; otherwise it puts exactly one solid entry
with destination rectangle (x, y, 1, 1) and the given colour at the head of
the layer and leaves the other layers as they were. -/
theorem DrawPoint_spec (b : SOFTWAREBUFFER) (layer : Nat) (x y : Int) (colour : Ptr) :
    ((x < 0 ∨ x ≥ b.width ∨ y < 0 ∨ y ≥ b.height) → b.DrawPoint layer x y colour = b) ∧
    (¬ (x < 0 ∨ x ≥ b.width ∨ y < 0 ∨ y ≥ b.height) →
      b.DrawPoint layer x y colour = b.link layer (RENDERQUEUE.solid ⟨x, y, 1, 1⟩ colour) ∧
      (layer < b.queue.length →
        (b.DrawPoint layer x y colour).layer layer
          = RENDERQUEUE.solid ⟨x, y, 1, 1⟩ colour :: b.layer layer) ∧
      ∀ k, k ≠ layer → (b.DrawPoint layer x y colour).layer k = b.layer k) := by
  constructor
  · intro hout
    unfold SOFTWAREBUFFER.DrawPoint
    split_ifs with h1 h2
    · rfl
    · rfl
    · omega
  · intro hin
    have heq : b.DrawPoint layer x y colour
        = b.link layer (RENDERQUEUE.solid ⟨x, y, 1, 1⟩ colour) := by
      unfold SOFTWAREBUFFER.DrawPoint
      split_ifs with h1 h2
      · omega
      · omega
      · rfl
    rw [heq]
    exact ⟨rfl, fun hl => link_layer_self _ _ _ hl,
      fun k hk => link_layer_other _ _ _ _ (Ne.symm hk)⟩

/-- Witness of C13: in an 8x8 buffer the point (8, 3) is dropped and the point
(7, 3) is queued in front of the entry that layer 0 held. -/
theorem DrawPoint_spec_witness :
    (⟨8, 8, [[RENDERQUEUE.solid ⟨0, 0, 1, 1⟩ 5]]⟩ : SOFTWAREBUFFER).DrawPoint 0 8 3 9
      = ⟨8, 8, [[RENDERQUEUE.solid ⟨0, 0, 1, 1⟩ 5]]⟩ ∧
    ((⟨8, 8, [[RENDERQUEUE.solid ⟨0, 0, 1, 1⟩ 5]]⟩ : SOFTWAREBUFFER).DrawPoint 0 7 3 9).layer 0
      = [RENDERQUEUE.solid ⟨7, 3, 1, 1⟩ 9, RENDERQUEUE.solid ⟨0, 0, 1, 1⟩ 5] :=
  ⟨(DrawPoint_spec ⟨8, 8, [[RENDERQUEUE.solid ⟨0, 0, 1, 1⟩ 5]]⟩ 0 8 3 9).1 (by decide),
   ((DrawPoint_spec ⟨8, 8, [[RENDERQUEUE.solid ⟨0, 0, 1, 1⟩ 5]]⟩ 0 7 3 9).2 (by decide)).2.1
     (by decide)⟩

/-! ### Presentation and pacing -/

/-- The loop `for (iteration = 0; iteration < vsyncMultiple; iteration++)`
runs its body vsyncMultiple times. -/
theorem present_loop_count (n : Nat) :
    (List.range n).foldl (fun k _ => k + 1) 0 = n := by
  induction n with
  | zero => rfl
  | succ n ih => rw [List.range_succ, List.foldl_append, ih]; rfl

/-- RenderToScreen, path by path: what it returns and does when the lock
fails, when the depth is unsupported, when the copy fails, in the state Paced
and in the three cases of the framerate limiter. -/
theorem RenderToScreen_paths (b : SOFTWAREBUFFER) (mem : Memory) (FRAMERATE : ℚ)
    (env : RenderEnv) (vsyncMultiple : Nat) (timePrev : ℚ) (backgroundColour : Ptr) :
    (env.lockOk = false →
      b.RenderToScreen mem FRAMERATE env vsyncMultiple timePrev backgroundColour
        = ⟨Error, b, none, 0, none, timePrev⟩) ∧
    (env.lockOk = true →
      ¬ (env.BytesPerPixel = 1 ∨ env.BytesPerPixel = 2 ∨ env.BytesPerPixel = 4) →
      b.RenderToScreen mem FRAMERATE env vsyncMultiple timePrev backgroundColour
        = ⟨Error, b, none, 0, none, timePrev⟩) ∧
    (env.lockOk = true →
      (env.BytesPerPixel = 1 ∨ env.BytesPerPixel = 2 ∨ env.BytesPerPixel = 4) →
      (env.copyOk = false →
        b.RenderToScreen mem FRAMERATE env vsyncMultiple timePrev backgroundColour
          = ⟨Error, { b with queue := clearLayers b.queue },
              some (Blit mem backgroundColour b.queue), 0, none, timePrev⟩) ∧
      (env.copyOk = true →
        (vsyncMultiple ≠ 0 →
          b.RenderToScreen mem FRAMERATE env vsyncMultiple timePrev backgroundColour
            = ⟨true, { b with queue := clearLayers b.queue },
                some (Blit mem backgroundColour b.queue), vsyncMultiple, none, timePrev⟩) ∧
        (vsyncMultiple = 0 →
          ((env.timeNow : ℚ) ≥ timePrev + 100 →
            b.RenderToScreen mem FRAMERATE env vsyncMultiple timePrev backgroundColour
              = ⟨true, { b with queue := clearLayers b.queue },
                  some (Blit mem backgroundColour b.queue), 1, none, (env.timeNow : ℚ)⟩) ∧
          ((env.timeNow : ℚ) < timePrev + 100 →
            (env.timeNow : ℚ) < timePrev + framerateMilliseconds FRAMERATE →
            b.RenderToScreen mem FRAMERATE env vsyncMultiple timePrev backgroundColour
              = ⟨true, { b with queue := clearLayers b.queue },
                  some (Blit mem backgroundColour b.queue), 1,
                  some ⌊timePrev + framerateMilliseconds FRAMERATE - env.timeNow⌋.toNat,
                  timePrev + framerateMilliseconds FRAMERATE⟩) ∧
          ((env.timeNow : ℚ) < timePrev + 100 →
            ¬ (env.timeNow : ℚ) < timePrev + framerateMilliseconds FRAMERATE →
            b.RenderToScreen mem FRAMERATE env vsyncMultiple timePrev backgroundColour
              = ⟨true, { b with queue := clearLayers b.queue },
                  some (Blit mem backgroundColour b.queue), 1, none,
                  timePrev + framerateMilliseconds FRAMERATE⟩)))) := by
  refine ⟨fun hlock => ?_, fun hlock hbpp => ?_, fun hlock hbpp => ⟨fun hcopy => ?_,
    fun hcopy => ⟨fun hv => ?_, fun hv => ⟨fun h100 => ?_, fun h100 hnext => ?_,
      fun h100 hnext => ?_⟩⟩⟩⟩
  · simp [SOFTWAREBUFFER.RenderToScreen, hlock]
  · simp [SOFTWAREBUFFER.RenderToScreen, hlock, hbpp]
  · simp [SOFTWAREBUFFER.RenderToScreen, hlock, hbpp, hcopy]
  · simp [SOFTWAREBUFFER.RenderToScreen, hlock, hbpp, hcopy, hv, present_loop_count]
  · have h100b : timePrev + 100 ≤ (env.timeNow : ℚ) := h100
    simp [SOFTWAREBUFFER.RenderToScreen, hlock, hbpp, hcopy, hv, h100b]
  · have h100b : ¬ timePrev + 100 ≤ (env.timeNow : ℚ) := not_le.mpr h100
    simp [SOFTWAREBUFFER.RenderToScreen, hlock, hbpp, hcopy, hv, h100b, hnext]
  · have h100b : ¬ timePrev + 100 ≤ (env.timeNow : ℚ) := not_le.mpr h100
    simp [SOFTWAREBUFFER.RenderToScreen, hlock, hbpp, hcopy, hv, h100b, hnext]

/-- A call that returns `Error(...)` has not succeeded. -/
theorem Error_ne_true : ¬ Error = true := by decide

/-- C14: a RenderToScreen call that succeeds presents the frame exactly
vsyncMultiple times when vsyncMultiple >= 1 (Paced) and exactly once when
vsyncMultiple = 0 (Unpaced), and SDL_Delay is called in the state Unpaced
only. -/
theorem RenderToScreen_presents (b : SOFTWAREBUFFER) (mem : Memory) (FRAMERATE : ℚ)
    (env : RenderEnv) (vsyncMultiple : Nat) (timePrev : ℚ) (backgroundColour : Ptr)
    (hok : (b.RenderToScreen mem FRAMERATE env vsyncMultiple timePrev backgroundColour).result
      = true) :
    (b.RenderToScreen mem FRAMERATE env vsyncMultiple timePrev backgroundColour).presents
      = (if 1 ≤ vsyncMultiple then vsyncMultiple else 1) ∧
    ((b.RenderToScreen mem FRAMERATE env vsyncMultiple timePrev backgroundColour).delay ≠ none →
      vsyncMultiple = 0) := by
  obtain ⟨p1, p2, p3⟩ :=
    RenderToScreen_paths b mem FRAMERATE env vsyncMultiple timePrev backgroundColour
  cases hlock : env.lockOk with
  | false => rw [p1 hlock] at hok; exact absurd hok Error_ne_true
  | true =>
    by_cases hbpp : env.BytesPerPixel = 1 ∨ env.BytesPerPixel = 2 ∨ env.BytesPerPixel = 4
    · obtain ⟨q1, q2⟩ := p3 hlock hbpp
      cases hcopy : env.copyOk with
      | false => rw [q1 hcopy] at hok; exact absurd hok Error_ne_true
      | true =>
        obtain ⟨r1, r2⟩ := q2 hcopy
        by_cases hv : vsyncMultiple = 0
        · obtain ⟨t1, t2, t3⟩ := r2 hv
          have h1 : ¬ 1 ≤ vsyncMultiple := by omega
          by_cases h100 : (env.timeNow : ℚ) ≥ timePrev + 100
          · rw [t1 h100]; simp [hv]
          · have h100b : (env.timeNow : ℚ) < timePrev + 100 := not_le.mp h100
            by_cases hnext : (env.timeNow : ℚ) < timePrev + framerateMilliseconds FRAMERATE
            · rw [t2 h100b hnext]; simp [hv]
            · rw [t3 h100b hnext]; simp [hv]
        · have h1 : 1 ≤ vsyncMultiple := by omega
          rw [r1 hv]
          simp [h1]
    · rw [p2 hlock hbpp] at hok; exact absurd hok Error_ne_true

/-- Witness of C14: Paced with multiple 3, then Unpaced 5 ms after the
checkpoint at a 60 Hz target. -/
theorem RenderToScreen_presents_witness :
    ((⟨8, 8, [[]]⟩ : SOFTWAREBUFFER).RenderToScreen
        ⟨fun _ => ⟨0, 0, 0, 0, 0, 0, 0⟩, fun _ => ⟨[]⟩, fun _ => ⟨[], 0, 0⟩⟩ 60
        ⟨true, 4, true, 1005⟩ 3 1000 9).presents = (if 1 ≤ 3 then 3 else 1) ∧
    ((⟨8, 8, [[]]⟩ : SOFTWAREBUFFER).RenderToScreen
        ⟨fun _ => ⟨0, 0, 0, 0, 0, 0, 0⟩, fun _ => ⟨[]⟩, fun _ => ⟨[], 0, 0⟩⟩ 60
        ⟨true, 4, true, 1005⟩ 0 1000 9).presents = (if 1 ≤ 0 then 0 else 1) :=
  ⟨(RenderToScreen_presents ⟨8, 8, [[]]⟩ _ 60 ⟨true, 4, true, 1005⟩ 3 1000 9
      (by simp [SOFTWAREBUFFER.RenderToScreen])).1,
   (RenderToScreen_presents ⟨8, 8, [[]]⟩ _ 60 ⟨true, 4, true, 1005⟩ 0 1000 9
      (by simp [SOFTWAREBUFFER.RenderToScreen]; split_ifs <;> rfl)).1⟩

/-- C18: RenderToScreen returns false exactly when the lock fails, the pixel
depth is not 1, 2 or 4 bytes, or the copy to the renderer fails. When the lock
fails or the depth is unsupported, nothing is rasterized or presented, no
delay is taken, and the buffer and the checkpoint of the limiter are as
before. -/
theorem RenderToScreen_fails_iff (b : SOFTWAREBUFFER) (mem : Memory) (FRAMERATE : ℚ)
    (env : RenderEnv) (vsyncMultiple : Nat) (timePrev : ℚ) (backgroundColour : Ptr) :
    ((b.RenderToScreen mem FRAMERATE env vsyncMultiple timePrev backgroundColour).result = false ↔
      (env.lockOk = false ∨
        ¬ (env.BytesPerPixel = 1 ∨ env.BytesPerPixel = 2 ∨ env.BytesPerPixel = 4) ∨
        env.copyOk = false)) ∧
    ((env.lockOk = false ∨
        ¬ (env.BytesPerPixel = 1 ∨ env.BytesPerPixel = 2 ∨ env.BytesPerPixel = 4)) →
      (b.RenderToScreen mem FRAMERATE env vsyncMultiple timePrev backgroundColour).presents = 0 ∧
      (b.RenderToScreen mem FRAMERATE env vsyncMultiple timePrev backgroundColour).delay = none ∧
      (b.RenderToScreen mem FRAMERATE env vsyncMultiple timePrev backgroundColour).timePrev
        = timePrev ∧
      (b.RenderToScreen mem FRAMERATE env vsyncMultiple timePrev backgroundColour).frame.isNone
        = true ∧
      (b.RenderToScreen mem FRAMERATE env vsyncMultiple timePrev backgroundColour).buffer = b) := by
  obtain ⟨p1, p2, p3⟩ :=
    RenderToScreen_paths b mem FRAMERATE env vsyncMultiple timePrev backgroundColour
  cases hlock : env.lockOk with
  | false =>
    rw [p1 hlock]
    exact ⟨⟨fun _ => Or.inl rfl, fun _ => rfl⟩, fun _ => ⟨rfl, rfl, rfl, rfl, rfl⟩⟩
  | true =>
    by_cases hbpp : env.BytesPerPixel = 1 ∨ env.BytesPerPixel = 2 ∨ env.BytesPerPixel = 4
    · obtain ⟨q1, q2⟩ := p3 hlock hbpp
      refine ⟨?_, fun h => ?_⟩
      · cases hcopy : env.copyOk with
        | false =>
          rw [q1 hcopy]
          exact ⟨fun _ => Or.inr (Or.inr rfl), fun _ => rfl⟩
        | true =>
          have hres : (b.RenderToScreen mem FRAMERATE env vsyncMultiple timePrev
              backgroundColour).result = true := by
            obtain ⟨r1, r2⟩ := q2 hcopy
            by_cases hv : vsyncMultiple = 0
            · obtain ⟨t1, t2, t3⟩ := r2 hv
              by_cases h100 : (env.timeNow : ℚ) ≥ timePrev + 100
              · rw [t1 h100]
              · have h100b : (env.timeNow : ℚ) < timePrev + 100 := not_le.mp h100
                by_cases hnext : (env.timeNow : ℚ) < timePrev + framerateMilliseconds FRAMERATE
                · rw [t2 h100b hnext]
                · rw [t3 h100b hnext]
            · rw [r1 hv]
          rw [hres]
          constructor
          · intro h; exact absurd h (by decide)
          · rintro (h | h | h)
            · exact absurd h (by decide)
            · exact absurd hbpp h
            · exact absurd h (by decide)
      · rcases h with h | h
        · exact absurd h (by decide)
        · exact absurd hbpp h
    · rw [p2 hlock hbpp]
      exact ⟨⟨fun _ => Or.inr (Or.inl hbpp), fun _ => rfl⟩, fun _ => ⟨rfl, rfl, rfl, rfl, rfl⟩⟩

/-- Witness of C18: a 3-byte pixel depth with a queued entry: the call fails,
presents nothing and keeps the queue. -/
theorem RenderToScreen_fails_iff_witness :
    ((⟨8, 8, [[RENDERQUEUE.solid ⟨0, 0, 1, 1⟩ 5]]⟩ : SOFTWAREBUFFER).RenderToScreen
        ⟨fun _ => ⟨0, 0, 0, 0, 0, 0, 0⟩, fun _ => ⟨[]⟩, fun _ => ⟨[], 0, 0⟩⟩ 60
        ⟨true, 3, true, 1005⟩ 0 1000 9).result = false ∧
    ((⟨8, 8, [[RENDERQUEUE.solid ⟨0, 0, 1, 1⟩ 5]]⟩ : SOFTWAREBUFFER).RenderToScreen
        ⟨fun _ => ⟨0, 0, 0, 0, 0, 0, 0⟩, fun _ => ⟨[]⟩, fun _ => ⟨[], 0, 0⟩⟩ 60
        ⟨true, 3, true, 1005⟩ 0 1000 9).presents = 0 :=
  ⟨(RenderToScreen_fails_iff ⟨8, 8, [[RENDERQUEUE.solid ⟨0, 0, 1, 1⟩ 5]]⟩ _ 60
      ⟨true, 3, true, 1005⟩ 0 1000 9).1.2 (Or.inr (Or.inl (by decide))),
   ((RenderToScreen_fails_iff ⟨8, 8, [[RENDERQUEUE.solid ⟨0, 0, 1, 1⟩ 5]]⟩ _ 60
      ⟨true, 3, true, 1005⟩ 0 1000 9).2 (Or.inr (by decide))).1⟩

/-- C15 as amended: the step of the framerate limiter (Unpaced, after a
successful copy) with checkpoint p = timePrev and current time t = timeNow.
If at least 100 ms have elapsed (t - p >= 100, exactly 100 ms included) the
checkpoint becomes t and no delay is taken; otherwise (t - p < 100) the
checkpoint becomes exactly p + framerateMilliseconds, independent of t, and
SDL_Delay is called with the remaining time p + framerateMilliseconds - t,
truncated to whole milliseconds, when that time is positive, and not called
when it is not. -/
theorem RenderToScreen_limiter (b : SOFTWAREBUFFER) (mem : Memory) (FRAMERATE : ℚ)
    (env : RenderEnv) (vsyncMultiple : Nat) (timePrev : ℚ) (backgroundColour : Ptr)
    (hlock : env.lockOk = true)
    (hbpp : env.BytesPerPixel = 1 ∨ env.BytesPerPixel = 2 ∨ env.BytesPerPixel = 4)
    (hcopy : env.copyOk = true) (hv : vsyncMultiple = 0) :
    ((env.timeNow : ℚ) - timePrev ≥ 100 →
      (b.RenderToScreen mem FRAMERATE env vsyncMultiple timePrev backgroundColour).timePrev
        = (env.timeNow : ℚ) ∧
      (b.RenderToScreen mem FRAMERATE env vsyncMultiple timePrev backgroundColour).delay = none) ∧
    ((env.timeNow : ℚ) - timePrev < 100 →
      (b.RenderToScreen mem FRAMERATE env vsyncMultiple timePrev backgroundColour).timePrev
        = timePrev + framerateMilliseconds FRAMERATE ∧
      (b.RenderToScreen mem FRAMERATE env vsyncMultiple timePrev backgroundColour).delay
        = (if 0 < timePrev + framerateMilliseconds FRAMERATE - env.timeNow then
            some ⌊timePrev + framerateMilliseconds FRAMERATE - env.timeNow⌋.toNat
          else none)) := by
  obtain ⟨t1, t2, t3⟩ :=
    ((((RenderToScreen_paths b mem FRAMERATE env vsyncMultiple timePrev backgroundColour).2.2
      hlock hbpp).2 hcopy).2 hv)
  constructor
  · intro h
    have h100 : (env.timeNow : ℚ) ≥ timePrev + 100 := by linarith
    rw [t1 h100]
    exact ⟨rfl, rfl⟩
  · intro h
    have h100 : (env.timeNow : ℚ) < timePrev + 100 := by linarith
    by_cases hnext : (env.timeNow : ℚ) < timePrev + framerateMilliseconds FRAMERATE
    · rw [t2 h100 hnext]
      have hpos : 0 < timePrev + framerateMilliseconds FRAMERATE - env.timeNow := by linarith
      simp only [hpos, if_true]
      exact ⟨trivial, trivial⟩
    · rw [t3 h100 hnext]
      have hpos : ¬ 0 < timePrev + framerateMilliseconds FRAMERATE - env.timeNow := by
        intro hc; apply hnext; linarith
      simp only [hpos, if_false]
      exact ⟨trivial, trivial⟩

/-- Witness of the amended C15 at a 60 Hz target: 5 ms after the checkpoint
1000 the call delays 11 ms (the remaining 11.66 ms truncated) and the
checkpoint becomes 1000 + 1000/60; 100 ms after it the checkpoint becomes
1100 without a delay. -/
theorem RenderToScreen_limiter_witness :
    ((⟨8, 8, [[]]⟩ : SOFTWAREBUFFER).RenderToScreen
        ⟨fun _ => ⟨0, 0, 0, 0, 0, 0, 0⟩, fun _ => ⟨[]⟩, fun _ => ⟨[], 0, 0⟩⟩ 60
        ⟨true, 4, true, 1005⟩ 0 1000 9).timePrev = 1000 + framerateMilliseconds 60 ∧
    ((⟨8, 8, [[]]⟩ : SOFTWAREBUFFER).RenderToScreen
        ⟨fun _ => ⟨0, 0, 0, 0, 0, 0, 0⟩, fun _ => ⟨[]⟩, fun _ => ⟨[], 0, 0⟩⟩ 60
        ⟨true, 4, true, 1005⟩ 0 1000 9).delay = some 11 ∧
    ((⟨8, 8, [[]]⟩ : SOFTWAREBUFFER).RenderToScreen
        ⟨fun _ => ⟨0, 0, 0, 0, 0, 0, 0⟩, fun _ => ⟨[]⟩, fun _ => ⟨[], 0, 0⟩⟩ 60
        ⟨true, 4, true, 1100⟩ 0 1000 9).timePrev = 1100 := by
  have h1 := (RenderToScreen_limiter ⟨8, 8, [[]]⟩
    ⟨fun _ => ⟨0, 0, 0, 0, 0, 0, 0⟩, fun _ => ⟨[]⟩, fun _ => ⟨[], 0, 0⟩⟩ 60
    ⟨true, 4, true, 1005⟩ 0 1000 9 rfl (Or.inr (Or.inr rfl)) rfl rfl).2 (by norm_num)
  have h2 := (RenderToScreen_limiter ⟨8, 8, [[]]⟩
    ⟨fun _ => ⟨0, 0, 0, 0, 0, 0, 0⟩, fun _ => ⟨[]⟩, fun _ => ⟨[], 0, 0⟩⟩ 60
    ⟨true, 4, true, 1100⟩ 0 1000 9 rfl (Or.inr (Or.inr rfl)) rfl rfl).1 (by norm_num)
  refine ⟨h1.1, ?_, ?_⟩
  · rw [h1.2]
    have hfloor : ⌊(1000 : ℚ) + framerateMilliseconds 60 - ((1005 : ℕ) : ℚ)⌋ = 11 := by
      rw [Int.floor_eq_iff]
      unfold framerateMilliseconds
      constructor <;> norm_num
    have hpos : (0 : ℚ) < 1000 + framerateMilliseconds 60 - ((1005 : ℕ) : ℚ) := by
      unfold framerateMilliseconds; norm_num
    simp only [hpos, if_true, hfloor]
    rfl
  · simpa using h2.1

/-- C15 as stated fails at exactly 100 ms: with the checkpoint p = 0, the time
t = 100 and a 60 Hz target, t - p <= 100 holds, yet the checkpoint becomes
t = 100 and not p + framerateMilliseconds = 50/3. -/
theorem RenderToScreen_limiter_resets_at_100 :
    ((100 : ℕ) : ℚ) - 0 ≤ 100 ∧
    ((⟨8, 8, [[]]⟩ : SOFTWAREBUFFER).RenderToScreen
        ⟨fun _ => ⟨0, 0, 0, 0, 0, 0, 0⟩, fun _ => ⟨[]⟩, fun _ => ⟨[], 0, 0⟩⟩ 60
        ⟨true, 4, true, 100⟩ 0 0 9).timePrev = 100 ∧
    ((⟨8, 8, [[]]⟩ : SOFTWAREBUFFER).RenderToScreen
        ⟨fun _ => ⟨0, 0, 0, 0, 0, 0, 0⟩, fun _ => ⟨[]⟩, fun _ => ⟨[], 0, 0⟩⟩ 60
        ⟨true, 4, true, 100⟩ 0 0 9).timePrev ≠ 0 + framerateMilliseconds 60 := by
  have h : ((⟨8, 8, [[]]⟩ : SOFTWAREBUFFER).RenderToScreen
      ⟨fun _ => ⟨0, 0, 0, 0, 0, 0, 0⟩, fun _ => ⟨[]⟩, fun _ => ⟨[], 0, 0⟩⟩ 60
      ⟨true, 4, true, 100⟩ 0 0 9).timePrev = 100 := by
    simp [SOFTWAREBUFFER.RenderToScreen]
  refine ⟨by norm_num, h, ?_⟩
  rw [h]
  unfold framerateMilliseconds
  norm_num

/-! ### Clipping is exact -/

/-- The clipped rectangle covers exactly the pixels of the rectangle that lie
in the buffer. -/
theorem clipQuad_covers_iff (b : SOFTWAREBUFFER) (quad : SDL_Rect) (px py : Int) :
    (clipQuad b.width b.height quad).covers px py ↔ quad.covers px py ∧ b.inBounds px py := by
  simp only [SDL_Rect.covers, SOFTWAREBUFFER.inBounds, clipQuad]
  split_ifs <;> constructor <;> intro h <;> omega

/-- C19: for every buffer and rectangle, in particular those of positive width
and height, DrawQuad
adds an entry if and only if the rectangle has a pixel in the buffer. The entry
it adds is the intersection: x = max(x, 0), y = max(y, 0), right edge
min(x + w, width), bottom edge min(y + h, height); it covers exactly the pixels
of the rectangle that lie in the buffer, so no visible pixel is lost. When
there is no common pixel the buffer is unchanged. -/
theorem DrawQuad_exact_intersection (b : SOFTWAREBUFFER) (layer : Nat) (quad : SDL_Rect)
    (colour : Ptr) :
    ((∃ px py, quad.covers px py ∧ b.inBounds px py) →
      b.DrawQuad layer quad colour
        = b.link layer (RENDERQUEUE.solid
            ⟨max quad.x 0, max quad.y 0,
              min (quad.x + quad.w) b.width - max quad.x 0,
              min (quad.y + quad.h) b.height - max quad.y 0⟩ colour) ∧
      ∀ px py, (clipQuad b.width b.height quad).covers px py ↔
        quad.covers px py ∧ b.inBounds px py) ∧
    ((¬ ∃ px py, quad.covers px py ∧ b.inBounds px py) → b.DrawQuad layer quad colour = b) ∧
    (layer < b.queue.length →
      ((b.DrawQuad layer quad colour).layer layer ≠ b.layer layer ↔
        ∃ px py, quad.covers px py ∧ b.inBounds px py)) := by
  have hyes : (∃ px py, quad.covers px py ∧ b.inBounds px py) →
      b.DrawQuad layer quad colour
        = b.link layer (RENDERQUEUE.solid
            ⟨max quad.x 0, max quad.y 0,
              min (quad.x + quad.w) b.width - max quad.x 0,
              min (quad.y + quad.h) b.height - max quad.y 0⟩ colour) := by
    rintro ⟨px, py, hc, hb⟩
    have hcov : (clipQuad b.width b.height quad).covers px py :=
      (clipQuad_covers_iff b quad px py).2 ⟨hc, hb⟩
    rw [DrawQuad_of_covers b layer quad colour px py hcov]
    have hrect : clipQuad b.width b.height quad
        = ⟨max quad.x 0, max quad.y 0,
            min (quad.x + quad.w) b.width - max quad.x 0,
            min (quad.y + quad.h) b.height - max quad.y 0⟩ := by
      simp only [SDL_Rect.covers, SOFTWAREBUFFER.inBounds] at hc hb
      simp only [clipQuad, SDL_Rect.mk.injEq]
      refine ⟨?_, ?_, ?_, ?_⟩ <;> split_ifs <;> omega
    rw [hrect]
  have hno : (¬ ∃ px py, quad.covers px py ∧ b.inBounds px py) →
      b.DrawQuad layer quad colour = b := by
    intro hnone
    rw [DrawQuad_eq]
    by_cases hdrop : (clipQuad b.width b.height quad).w ≤ 0 ∨
        (clipQuad b.width b.height quad).h ≤ 0
    · simp only [hdrop, if_true]
    · exfalso
      apply hnone
      refine ⟨(clipQuad b.width b.height quad).x, (clipQuad b.width b.height quad).y, ?_⟩
      apply (clipQuad_covers_iff b quad _ _).1
      unfold SDL_Rect.covers
      omega
  refine ⟨fun h => ⟨hyes h, fun px py => clipQuad_covers_iff b quad px py⟩, hno, fun hl => ?_⟩
  constructor
  · intro hne
    by_contra hnone
    exact hne (by rw [hno hnone])
  · intro h
    rw [hyes h, link_layer_self _ _ _ hl]
    intro heq
    have hlen := congrArg List.length heq
    simp at hlen

/-- Witness of C19: the rectangle (-2,-3,5,20) shares the pixel (0,0) with an
8x8 buffer and is queued as (0,0,3,8); the rectangle (8,2,3,3) shares none and
is dropped. -/
theorem DrawQuad_exact_intersection_witness :
    (⟨8, 8, [[]]⟩ : SOFTWAREBUFFER).DrawQuad 0 ⟨-2, -3, 5, 20⟩ 1
      = (⟨8, 8, [[]]⟩ : SOFTWAREBUFFER).link 0 (RENDERQUEUE.solid
          ⟨max (-2) 0, max (-3) 0, min (-2 + 5) 8 - max (-2) 0,
            min (-3 + 20) 8 - max (-3) 0⟩ 1) ∧
    (⟨8, 8, [[]]⟩ : SOFTWAREBUFFER).DrawQuad 0 ⟨8, 2, 3, 3⟩ 1 = ⟨8, 8, [[]]⟩ :=
  ⟨((DrawQuad_exact_intersection ⟨8, 8, [[]]⟩ 0 ⟨-2, -3, 5, 20⟩ 1).1
      ⟨0, 0, by decide, by decide⟩).1,
   (DrawQuad_exact_intersection ⟨8, 8, [[]]⟩ 0 ⟨8, 2, 3, 3⟩ 1).2.1 (by
      rintro ⟨px, py, hc, hb⟩
      simp only [SDL_Rect.covers, SOFTWAREBUFFER.inBounds] at hc hb
      omega)⟩

/-- C20: when the entry that DrawTexture queues has positive width and height,
its destination rectangle lies inside the buffer (0 <= x, x + w <= width,
0 <= y, y + h <= height) and the clipped source rectangle lies inside the
source rectangle (sx, sy, w, h) of the call: sx <= srcX and
srcX + w' <= sx + w, sy <= srcY and srcY + h' <= sy + h, for all flip flags. -/
theorem DrawTexture_clip_contained (b : SOFTWAREBUFFER) (textureAt : Ptr → TEXTURE)
    (texture palette : Ptr) (src : Option SDL_Rect) (layer : Nat) (x y : Int)
    (xFlip yFlip : Bool)
    (hw : 0 < (clipTexture b.width b.height (sourceRect textureAt texture src)
      x y xFlip yFlip).dest.w)
    (hh : 0 < (clipTexture b.width b.height (sourceRect textureAt texture src)
      x y xFlip yFlip).dest.h) :
    b.DrawTexture textureAt texture palette src layer x y xFlip yFlip =
      b.link layer (RENDERQUEUE.texture
        (clipTexture b.width b.height (sourceRect textureAt texture src) x y xFlip yFlip).dest
        (clipTexture b.width b.height (sourceRect textureAt texture src) x y xFlip yFlip).srcX
        (clipTexture b.width b.height (sourceRect textureAt texture src) x y xFlip yFlip).srcY
        palette texture xFlip yFlip) ∧
    (0 ≤ (clipTexture b.width b.height (sourceRect textureAt texture src) x y xFlip yFlip).dest.x ∧
      (clipTexture b.width b.height (sourceRect textureAt texture src) x y xFlip yFlip).dest.x
        + (clipTexture b.width b.height (sourceRect textureAt texture src) x y xFlip yFlip).dest.w
        ≤ b.width ∧
      0 ≤ (clipTexture b.width b.height (sourceRect textureAt texture src) x y xFlip yFlip).dest.y ∧
      (clipTexture b.width b.height (sourceRect textureAt texture src) x y xFlip yFlip).dest.y
        + (clipTexture b.width b.height (sourceRect textureAt texture src) x y xFlip yFlip).dest.h
        ≤ b.height) ∧
    ((sourceRect textureAt texture src).x
        ≤ (clipTexture b.width b.height (sourceRect textureAt texture src) x y xFlip yFlip).srcX ∧
      (clipTexture b.width b.height (sourceRect textureAt texture src) x y xFlip yFlip).srcX
        + (clipTexture b.width b.height (sourceRect textureAt texture src) x y xFlip yFlip).dest.w
        ≤ (sourceRect textureAt texture src).x + (sourceRect textureAt texture src).w ∧
      (sourceRect textureAt texture src).y
        ≤ (clipTexture b.width b.height (sourceRect textureAt texture src) x y xFlip yFlip).srcY ∧
      (clipTexture b.width b.height (sourceRect textureAt texture src) x y xFlip yFlip).srcY
        + (clipTexture b.width b.height (sourceRect textureAt texture src) x y xFlip yFlip).dest.h
        ≤ (sourceRect textureAt texture src).y + (sourceRect textureAt texture src).h) := by
  refine ⟨rfl, ?_, ?_⟩
  · revert hw hh
    simp only [clipTexture]
    cases xFlip <;> cases yFlip <;> simp <;> split_ifs <;> intros <;> omega
  · revert hw hh
    simp only [clipTexture]
    cases xFlip <;> cases yFlip <;> simp <;> split_ifs <;> intros <;> omega

/-- Witness of C20: a 4x4 source at (2,3) of its texture, drawn x-flipped at
(-2, 6) into an 8x8 buffer: the entry is (0,6,2,2) with source origin (2,3). -/
theorem DrawTexture_clip_contained_witness :
    (clipTexture 8 8 ⟨2, 3, 4, 4⟩ (-2) 6 true false) = ⟨⟨0, 6, 2, 2⟩, 2, 3⟩ ∧
    (0 ≤ (clipTexture 8 8 ⟨2, 3, 4, 4⟩ (-2) 6 true false).dest.x ∧
      (clipTexture 8 8 ⟨2, 3, 4, 4⟩ (-2) 6 true false).dest.x
        + (clipTexture 8 8 ⟨2, 3, 4, 4⟩ (-2) 6 true false).dest.w ≤ 8 ∧
      0 ≤ (clipTexture 8 8 ⟨2, 3, 4, 4⟩ (-2) 6 true false).dest.y ∧
      (clipTexture 8 8 ⟨2, 3, 4, 4⟩ (-2) 6 true false).dest.y
        + (clipTexture 8 8 ⟨2, 3, 4, 4⟩ (-2) 6 true false).dest.h ≤ 8) ∧
    ((2 : Int) ≤ (clipTexture 8 8 ⟨2, 3, 4, 4⟩ (-2) 6 true false).srcX ∧
      (clipTexture 8 8 ⟨2, 3, 4, 4⟩ (-2) 6 true false).srcX
        + (clipTexture 8 8 ⟨2, 3, 4, 4⟩ (-2) 6 true false).dest.w ≤ 2 + 4 ∧
      (3 : Int) ≤ (clipTexture 8 8 ⟨2, 3, 4, 4⟩ (-2) 6 true false).srcY ∧
      (clipTexture 8 8 ⟨2, 3, 4, 4⟩ (-2) 6 true false).srcY
        + (clipTexture 8 8 ⟨2, 3, 4, 4⟩ (-2) 6 true false).dest.h ≤ 3 + 4) :=
  ⟨by decide,
   (DrawTexture_clip_contained ⟨8, 8, [[]]⟩ (fun _ => ⟨[], 9, 9⟩) 1 2 (some ⟨2, 3, 4, 4⟩) 0
      (-2) 6 true false (by decide) (by decide)).2⟩

/-! ### The texture registry -/

/-- Writing the object at an address that a chain does not pass leaves the
chain as it was. -/
theorem chain_update_of_not_mem (w : TextureWorld) (heads : Ptr → Option Ptr) (this : Ptr)
    (o : Option TEXTURE_OBJECT) (fuel : Nat) (p : Option Ptr)
    (h : this ∉ w.chain fuel p) :
    (TextureWorld.mk heads (Function.update w.objects this o)).chain fuel p = w.chain fuel p := by
  induction fuel generalizing p with
  | zero => rfl
  | succ fuel ih =>
    cases p with
    | none => rfl
    | some a =>
      simp only [TextureWorld.chain, List.mem_cons, not_or] at h ⊢
      obtain ⟨hne, hrest⟩ := h
      rw [Function.update_noteq (Ne.symm hne)]
      cases hobj : w.objects a with
      | none => rfl
      | some oa =>
        rw [hobj] at hrest
        simp only [ih oa.next hrest]

/-- Attaching a new object that carries no failure and no links creates the
texture as required. -/
theorem attach_created (w : TextureWorld) (this : Ptr) (obj : TEXTURE_OBJECT)
    (linkedList : Option Ptr) (hfail : obj.fail = none) (hlist : obj.list = none)
    (hnext : obj.next = none) :
    (w.attach this obj linkedList).CreatedFrom w this linkedList := by
  cases linkedList with
  | none =>
    refine ⟨fun p hp => ?_, obj, ?_, ?_, ?_, ?_⟩
    · simp [TextureWorld.attach, Function.update_noteq hp]
    · simp [TextureWorld.attach]
    · intro hf; exact absurd hfail hf
    · intro _ _; exact ⟨rfl, hlist, hnext⟩
    · intro _ l hl; exact Option.noConfusion hl
  | some l0 =>
    refine ⟨fun p hp => ?_, { obj with list := some l0, next := w.heads l0 }, ?_, ?_, ?_, ?_⟩
    · simp [TextureWorld.attach, Function.update_noteq hp]
    · simp [TextureWorld.attach]
    · intro hf; exact absurd hfail hf
    · intro _ hl; exact Option.noConfusion hl
    · intro _ l hl
      injection hl with hl
      subst hl
      refine ⟨by simp [TextureWorld.attach], rfl, rfl, fun k hk => ?_, fun fuel hfresh => ?_⟩
      · simp [TextureWorld.attach, Function.update_noteq hk]
      · have hhead : (w.attach this obj (some l0)).heads l0 = some this := by
          simp [TextureWorld.attach]
        rw [hhead]
        simp only [TextureWorld.chain, TextureWorld.attach, Function.update_same]
        rw [chain_update_of_not_mem w _ this _ fuel (w.heads l0) hfresh]

/-- A constructor that returns early creates an object with a failure message
and without links, and writes nothing else. -/
theorem failed_created (w : TextureWorld) (this : Ptr) (obj : TEXTURE_OBJECT)
    (message : String) (linkedList : Option Ptr) (hlist : obj.list = none)
    (hnext : obj.next = none) :
    (w.failed this obj message).CreatedFrom w this linkedList := by
  refine ⟨fun p hp => ?_, { obj with fail := some message }, ?_, ?_, ?_, ?_⟩
  · simp [TextureWorld.failed, Function.update_noteq hp]
  · simp [TextureWorld.failed]
  · intro _; exact ⟨rfl, hlist, hnext⟩
  · intro hf; exact Option.noConfusion hf
  · intro hf; exact Option.noConfusion hf

/-- C16: both constructors, for every state of the textures and head
variables, every address `this` of the new object and every outcome of the
loading and allocation steps. When the creation succeeds and a head variable
is given, that variable points to the new texture, whose next link is the
previous head, so that the registry lists the new texture first and then the
textures it listed before (the new address not being one of them); the other
head variables and all other textures are unchanged. Without a head variable
the new texture has no list and no next. When the creation fails no head
variable is written and the new object is not linked. -/
theorem TEXTURE_created_at_head {Fmt : Type} (SDL_MapRGB : MapRGB Fmt) (gNativeFormat : Fmt)
    (w : TextureWorld) (this : Ptr) (linkedList : Option Ptr) (path : String)
    (bitmap : Option SDL_Surface) (sdlError : String) (paletteOk mallocOk : Bool)
    (data : List Nat) (dWidth dHeight : Int) :
    (TEXTURE.fromPath SDL_MapRGB gNativeFormat w this linkedList path bitmap sdlError
        paletteOk mallocOk).CreatedFrom w this linkedList ∧
    (TEXTURE.fromMemory w this linkedList data dWidth dHeight mallocOk).CreatedFrom
        w this linkedList ∧
    ((TEXTURE.fromMemory w this linkedList data dWidth dHeight mallocOk).objects this
        |>.bind TEXTURE_OBJECT.fail) = (if mallocOk then none
          else some "Failed to allocate texture buffer") := by
  refine ⟨?_, ?_, ?_⟩
  · unfold TEXTURE.fromPath
    dsimp only
    split
    · apply failed_created <;> rfl
    · split
      · apply failed_created <;> rfl
      · split_ifs
        · apply failed_created <;> rfl
        · apply failed_created <;> rfl
        · apply failed_created <;> rfl
        · apply attach_created <;> rfl
  · unfold TEXTURE.fromMemory
    simp only
    split_ifs
    · apply failed_created <;> rfl
    · apply attach_created <;> rfl
  · cases mallocOk <;> cases linkedList <;>
      simp [TEXTURE.fromMemory, TextureWorld.failed, TextureWorld.attach, TEXTURE_OBJECT.zero]

/-- Witness of C16: no texture exists and the head variable at address 0 is
null; a 2x2 texture is created from memory at address 5 and then one at
address 6, both with the head variable 0: the head is 6, the next link of 6 is
5, and the registry lists 6, 5. -/
theorem TEXTURE_created_at_head_witness :
    (TEXTURE.fromMemory
        (TEXTURE.fromMemory ⟨fun _ => none, fun _ => none⟩ 5 (some 0) [1, 2, 3, 4] 2 2 true)
        6 (some 0) [5, 6, 7, 8] 2 2 true).heads 0 = some 6 ∧
    (TEXTURE.fromMemory
        (TEXTURE.fromMemory ⟨fun _ => none, fun _ => none⟩ 5 (some 0) [1, 2, 3, 4] 2 2 true)
        6 (some 0) [5, 6, 7, 8] 2 2 true).chain 2
      ((TEXTURE.fromMemory
        (TEXTURE.fromMemory ⟨fun _ => none, fun _ => none⟩ 5 (some 0) [1, 2, 3, 4] 2 2 true)
        6 (some 0) [5, 6, 7, 8] 2 2 true).heads 0) = [6, 5] := by
  obtain ⟨_, o, ho, _, _, hlinked⟩ :=
    (TEXTURE_created_at_head (fun (_ : Unit) r _ _ => r.val) ()
      (TEXTURE.fromMemory ⟨fun _ => none, fun _ => none⟩ 5 (some 0) [1, 2, 3, 4] 2 2 true)
      6 (some 0) "" none "" true true [5, 6, 7, 8] 2 2).2.1
  have hfail : o.fail = none := by
    have hobj : (TEXTURE.fromMemory
        (TEXTURE.fromMemory ⟨fun _ => none, fun _ => none⟩ 5 (some 0) [1, 2, 3, 4] 2 2 true)
        6 (some 0) [5, 6, 7, 8] 2 2 true).objects 6
        = some ⟨none, none, some [5, 6, 7, 8], 2, 2, none, some 0, some 5⟩ := rfl
    rw [hobj] at ho
    injection ho with ho
    rw [← ho]
  obtain ⟨hhead, _, _, _, hchain⟩ := hlinked hfail 0 rfl
  exact ⟨hhead, hchain 1 (by decide)⟩

/-- The chain from a pointer, cut behind the first occurrence of an address:
what can still be walked when no object lives at that address. -/
theorem chain_destroyObject (w : TextureWorld) (this : Ptr) (fuel : Nat) (p : Option Ptr) :
    (this ∉ w.chain fuel p → (TEXTURE.destroyObject w this).chain fuel p = w.chain fuel p) ∧
    (this ∈ w.chain fuel p → ∃ front behind,
      w.chain fuel p = front ++ this :: behind ∧ this ∉ front ∧
      (TEXTURE.destroyObject w this).chain fuel p = front ++ [this]) := by
  constructor
  · intro h
    exact chain_update_of_not_mem w w.heads this none fuel p h
  · induction fuel generalizing p with
    | zero => intro h; exact absurd h (List.not_mem_nil _)
    | succ fuel ih =>
      cases p with
      | none => intro h; exact absurd h (List.not_mem_nil _)
      | some a =>
        intro h
        by_cases ha : a = this
        · subst ha
          refine ⟨[], _, rfl, List.not_mem_nil _, ?_⟩
          simp [TextureWorld.chain, TEXTURE.destroyObject]
        · simp only [TextureWorld.chain, List.mem_cons] at h
          have hrest : this ∈ (match w.objects a with
              | some o => w.chain fuel o.next
              | none => []) := by
            rcases h with h | h
            · exact absurd h.symm ha
            · exact h
          cases hobj : w.objects a with
          | none => rw [hobj] at hrest; exact absurd hrest (List.not_mem_nil _)
          | some oa =>
            rw [hobj] at hrest
            obtain ⟨front, behind, hsplit, hfront, hafter⟩ := ih oa.next hrest
            refine ⟨a :: front, behind, ?_, ?_, ?_⟩
            · simp only [TextureWorld.chain, hobj, hsplit, List.cons_append]
            · simp only [List.mem_cons, not_or]
              exact ⟨fun h => ha h.symm, hfront⟩
            · have hkeep : (TEXTURE.destroyObject w this).objects a = some oa := by
                simp [TEXTURE.destroyObject, Function.update_noteq ha, hobj]
              simp only [TextureWorld.chain, hkeep, hafter, List.cons_append]

/-- C17 as amended: destroying the texture at address t writes no head variable
and no other texture, so a texture that is linked in a registry stays linked:
its address is still in the chain from the head, the textures in front of it
are still reached in their order, and the chain ends at t, the textures behind
it being linked only through the `next` field of the object that is gone. -/
theorem TEXTURE_destroy_keeps_registry_links (w : TextureWorld) (t : Ptr) (fuel : Nat)
    (l : Ptr) (hlinked : t ∈ w.chain fuel (w.heads l)) :
    (TEXTURE.destroyObject w t).heads = w.heads ∧
    (∀ p, p ≠ t → (TEXTURE.destroyObject w t).objects p = w.objects p) ∧
    t ∈ (TEXTURE.destroyObject w t).chain fuel ((TEXTURE.destroyObject w t).heads l) ∧
    ∃ front behind, w.chain fuel (w.heads l) = front ++ t :: behind ∧ t ∉ front ∧
      (TEXTURE.destroyObject w t).chain fuel ((TEXTURE.destroyObject w t).heads l)
        = front ++ [t] := by
  obtain ⟨front, behind, hsplit, hfront, hafter⟩ :=
    (chain_destroyObject w t fuel (w.heads l)).2 hlinked
  have hheads : (TEXTURE.destroyObject w t).heads = w.heads := rfl
  refine ⟨hheads, fun p hp => ?_, ?_, front, behind, hsplit, hfront, ?_⟩
  · simp [TEXTURE.destroyObject, Function.update_noteq hp]
  · rw [hheads, hafter]
    simp
  · rw [hheads, hafter]

/-- The registry used below: textures created at the addresses 4, 5 and 6, in
this order, with the head variable 0; it lists 6, 5, 4. -/
theorem TEXTURE_registry_example :
    (TEXTURE.fromMemory (TEXTURE.fromMemory (TEXTURE.fromMemory ⟨fun _ => none, fun _ => none⟩
        4 (some 0) [] 0 0 true) 5 (some 0) [] 0 0 true) 6 (some 0) [] 0 0 true).chain 3 ((TEXTURE.fromMemory (TEXTURE.fromMemory (TEXTURE.fromMemory ⟨fun _ => none, fun _ => none⟩
        4 (some 0) [] 0 0 true) 5 (some 0) [] 0 0 true) 6 (some 0) [] 0 0 true).heads 0) = [6, 5, 4] := rfl

/-- Witness of the amended C17: in the registry 6, 5, 4 the texture 5 is
destroyed; the chain from the head is then 6, 5. -/
theorem TEXTURE_destroy_keeps_registry_links_witness :
    (TEXTURE.destroyObject (TEXTURE.fromMemory (TEXTURE.fromMemory (TEXTURE.fromMemory ⟨fun _ => none, fun _ => none⟩
        4 (some 0) [] 0 0 true) 5 (some 0) [] 0 0 true) 6 (some 0) [] 0 0 true) 5).heads = (TEXTURE.fromMemory (TEXTURE.fromMemory (TEXTURE.fromMemory ⟨fun _ => none, fun _ => none⟩
        4 (some 0) [] 0 0 true) 5 (some 0) [] 0 0 true) 6 (some 0) [] 0 0 true).heads ∧
    5 ∈ (TEXTURE.destroyObject (TEXTURE.fromMemory (TEXTURE.fromMemory (TEXTURE.fromMemory ⟨fun _ => none, fun _ => none⟩
        4 (some 0) [] 0 0 true) 5 (some 0) [] 0 0 true) 6 (some 0) [] 0 0 true) 5).chain 3 ((TEXTURE.destroyObject (TEXTURE.fromMemory (TEXTURE.fromMemory (TEXTURE.fromMemory ⟨fun _ => none, fun _ => none⟩
        4 (some 0) [] 0 0 true) 5 (some 0) [] 0 0 true) 6 (some 0) [] 0 0 true) 5).heads 0) :=
  have h := TEXTURE_destroy_keeps_registry_links (TEXTURE.fromMemory (TEXTURE.fromMemory (TEXTURE.fromMemory ⟨fun _ => none, fun _ => none⟩
        4 (some 0) [] 0 0 true) 5 (some 0) [] 0 0 true) 6 (some 0) [] 0 0 true) 5 3 0 (by
    rw [TEXTURE_registry_example]; decide)
  ⟨h.1, h.2.2.1⟩

/-- C17 as stated fails: in the registry 6, 5, 4 (head variable 0) the texture
at address 5 is destroyed. The head variable still points to 6, whose next
link still points to 5: the address 5 is still reached from the head, as the
last element of the chain 6, 5, and no object lives there any more. -/
theorem TEXTURE_destroy_does_not_unlink :
    5 ∈ (TEXTURE.fromMemory (TEXTURE.fromMemory (TEXTURE.fromMemory ⟨fun _ => none, fun _ => none⟩
        4 (some 0) [] 0 0 true) 5 (some 0) [] 0 0 true) 6 (some 0) [] 0 0 true).chain 3 ((TEXTURE.fromMemory (TEXTURE.fromMemory (TEXTURE.fromMemory ⟨fun _ => none, fun _ => none⟩
        4 (some 0) [] 0 0 true) 5 (some 0) [] 0 0 true) 6 (some 0) [] 0 0 true).heads 0) ∧
    (TEXTURE.destroyObject (TEXTURE.fromMemory (TEXTURE.fromMemory (TEXTURE.fromMemory ⟨fun _ => none, fun _ => none⟩
        4 (some 0) [] 0 0 true) 5 (some 0) [] 0 0 true) 6 (some 0) [] 0 0 true) 5).heads 0 = some 6 ∧
    ((TEXTURE.destroyObject (TEXTURE.fromMemory (TEXTURE.fromMemory (TEXTURE.fromMemory ⟨fun _ => none, fun _ => none⟩
        4 (some 0) [] 0 0 true) 5 (some 0) [] 0 0 true) 6 (some 0) [] 0 0 true) 5).objects 6).map TEXTURE_OBJECT.next = some (some 5) ∧
    (TEXTURE.destroyObject (TEXTURE.fromMemory (TEXTURE.fromMemory (TEXTURE.fromMemory ⟨fun _ => none, fun _ => none⟩
        4 (some 0) [] 0 0 true) 5 (some 0) [] 0 0 true) 6 (some 0) [] 0 0 true) 5).objects 5 = none ∧
    (TEXTURE.destroyObject (TEXTURE.fromMemory (TEXTURE.fromMemory (TEXTURE.fromMemory ⟨fun _ => none, fun _ => none⟩
        4 (some 0) [] 0 0 true) 5 (some 0) [] 0 0 true) 6 (some 0) [] 0 0 true) 5).chain 3 ((TEXTURE.destroyObject (TEXTURE.fromMemory (TEXTURE.fromMemory (TEXTURE.fromMemory ⟨fun _ => none, fun _ => none⟩
        4 (some 0) [] 0 0 true) 5 (some 0) [] 0 0 true) 6 (some 0) [] 0 0 true) 5).heads 0) = [6, 5] ∧
    5 ∈ (TEXTURE.destroyObject (TEXTURE.fromMemory (TEXTURE.fromMemory (TEXTURE.fromMemory ⟨fun _ => none, fun _ => none⟩
        4 (some 0) [] 0 0 true) 5 (some 0) [] 0 0 true) 6 (some 0) [] 0 0 true) 5).chain 3 ((TEXTURE.destroyObject (TEXTURE.fromMemory (TEXTURE.fromMemory (TEXTURE.fromMemory ⟨fun _ => none, fun _ => none⟩
        4 (some 0) [] 0 0 true) 5 (some 0) [] 0 0 true) 6 (some 0) [] 0 0 true) 5).heads 0) := by
  have hchain : (TEXTURE.destroyObject (TEXTURE.fromMemory (TEXTURE.fromMemory (TEXTURE.fromMemory ⟨fun _ => none, fun _ => none⟩
        4 (some 0) [] 0 0 true) 5 (some 0) [] 0 0 true) 6 (some 0) [] 0 0 true) 5).chain 3 ((TEXTURE.destroyObject (TEXTURE.fromMemory (TEXTURE.fromMemory (TEXTURE.fromMemory ⟨fun _ => none, fun _ => none⟩
        4 (some 0) [] 0 0 true) 5 (some 0) [] 0 0 true) 6 (some 0) [] 0 0 true) 5).heads 0)
      = [6, 5] := rfl
  refine ⟨?_, rfl, rfl, rfl, hchain, ?_⟩
  · rw [TEXTURE_registry_example]; decide
  · rw [hchain]; decide

/-! ### Camera -/

/-- The horizontal step keeps x inside the boundaries. -/
theorem trackHorizontal_inside (SCREEN_WIDTH : Int) (gLevel : LEVEL) (c : CAMERA) (trackX : Int)
    (hW : gLevel.rightBoundary - gLevel.leftBoundary ≥ SCREEN_WIDTH)
    (hl : gLevel.leftBoundary ≤ c.x) (hr : c.x ≤ gLevel.rightBoundary - SCREEN_WIDTH) :
    gLevel.leftBoundary ≤ trackHorizontal SCREEN_WIDTH gLevel c trackX ∧
    trackHorizontal SCREEN_WIDTH gLevel c trackX ≤ gLevel.rightBoundary - SCREEN_WIDTH := by
  simp only [trackHorizontal]
  generalize int16 (int16 (trackX - c.x - c.xPan)
    - (Int.tdiv SCREEN_WIDTH 2 + CAMERA_HSCROLL_LEFT)) = h1
  generalize int16 (h1 - CAMERA_HSCROLL_SIZE) = h2
  split_ifs <;> omega

/-- The vertical step keeps y inside the boundaries. -/
theorem trackVertical_inside (SCREEN_HEIGHT : Int) (gLevel : LEVEL) (c : CAMERA)
    (trackPlayer : PLAYER)
    (hH : gLevel.bottomBoundary - gLevel.topBoundary ≥ SCREEN_HEIGHT)
    (ht : gLevel.topBoundary ≤ c.y) (hb : c.y ≤ gLevel.bottomBoundary - SCREEN_HEIGHT) :
    gLevel.topBoundary ≤ trackVertical SCREEN_HEIGHT gLevel c trackPlayer ∧
    trackVertical SCREEN_HEIGHT gLevel c trackPlayer ≤ gLevel.bottomBoundary - SCREEN_HEIGHT := by
  simp only [trackVertical]
  generalize (if trackPlayer.status.inAir = true then
      if (if trackPlayer.status.inBall = true then
            int16 (int16 (trackPlayer.y.pos - c.y
              - (Int.tdiv SCREEN_HEIGHT 2 + CAMERA_VSCROLL_OFFSET) - c.lookPan) - 5)
          else int16 (trackPlayer.y.pos - c.y
              - (Int.tdiv SCREEN_HEIGHT 2 + CAMERA_VSCROLL_OFFSET) - c.lookPan))
          < -CAMERA_VSCROLL_UP then
        int16 ((if trackPlayer.status.inBall = true then
            int16 (int16 (trackPlayer.y.pos - c.y
              - (Int.tdiv SCREEN_HEIGHT 2 + CAMERA_VSCROLL_OFFSET) - c.lookPan) - 5)
          else int16 (trackPlayer.y.pos - c.y
              - (Int.tdiv SCREEN_HEIGHT 2 + CAMERA_VSCROLL_OFFSET) - c.lookPan))
          + CAMERA_VSCROLL_UP)
      else if (if trackPlayer.status.inBall = true then
            int16 (int16 (trackPlayer.y.pos - c.y
              - (Int.tdiv SCREEN_HEIGHT 2 + CAMERA_VSCROLL_OFFSET) - c.lookPan) - 5)
          else int16 (trackPlayer.y.pos - c.y
              - (Int.tdiv SCREEN_HEIGHT 2 + CAMERA_VSCROLL_OFFSET) - c.lookPan))
          ≥ CAMERA_VSCROLL_DOWN then
        int16 ((if trackPlayer.status.inBall = true then
            int16 (int16 (trackPlayer.y.pos - c.y
              - (Int.tdiv SCREEN_HEIGHT 2 + CAMERA_VSCROLL_OFFSET) - c.lookPan) - 5)
          else int16 (trackPlayer.y.pos - c.y
              - (Int.tdiv SCREEN_HEIGHT 2 + CAMERA_VSCROLL_OFFSET) - c.lookPan))
          - CAMERA_VSCROLL_DOWN)
      else 0
    else (if trackPlayer.status.inBall = true then
            int16 (int16 (trackPlayer.y.pos - c.y
              - (Int.tdiv SCREEN_HEIGHT 2 + CAMERA_VSCROLL_OFFSET) - c.lookPan) - 5)
          else int16 (trackPlayer.y.pos - c.y
              - (Int.tdiv SCREEN_HEIGHT 2 + CAMERA_VSCROLL_OFFSET) - c.lookPan))) = v
  have h16 : int16 (-16) = -16 ∧ int16 16 = 16 ∧ int16 (-2) = -2 ∧ int16 2 = 2 ∧
      int16 (-6) = -6 ∧ int16 6 = 6 := by decide
  obtain ⟨a1, a2, a3, a4, a5, a6⟩ := h16
  split_ifs
  all_goals (try rw [a1])
  all_goals (try rw [a2])
  all_goals (try rw [a3])
  all_goals (try rw [a4])
  all_goals (try rw [a5])
  all_goals (try rw [a6])
  all_goals omega

/-- C21: in a level whose boundaries are at least one screen apart, the
constructor puts the camera inside the level boundaries for every player
position (leftBoundary <= x <= rightBoundary - SCREEN_WIDTH and
topBoundary <= y <= bottomBoundary - SCREEN_HEIGHT), every Track call keeps a
camera that is inside the boundaries inside them, and a Track call for a
player whose cameraLock is set leaves the camera as it is. -/
theorem CAMERA_stays_inside (SCREEN_WIDTH SCREEN_HEIGHT PLAYER_RECORD_LENGTH : Int)
    (gLevel : LEVEL)
    (hW : gLevel.rightBoundary - gLevel.leftBoundary ≥ SCREEN_WIDTH)
    (hH : gLevel.bottomBoundary - gLevel.topBoundary ≥ SCREEN_HEIGHT) :
    (∀ trackPlayer : PLAYER,
      (CAMERA.new SCREEN_WIDTH SCREEN_HEIGHT gLevel trackPlayer).inside
        SCREEN_WIDTH SCREEN_HEIGHT gLevel) ∧
    (∀ (c : CAMERA) (trackPlayer : PLAYER), c.inside SCREEN_WIDTH SCREEN_HEIGHT gLevel →
      (CAMERA.Track SCREEN_WIDTH SCREEN_HEIGHT PLAYER_RECORD_LENGTH gLevel c trackPlayer).1.inside
        SCREEN_WIDTH SCREEN_HEIGHT gLevel) ∧
    (∀ (c : CAMERA) (trackPlayer : PLAYER), trackPlayer.cameraLock = true →
      (CAMERA.Track SCREEN_WIDTH SCREEN_HEIGHT PLAYER_RECORD_LENGTH gLevel c trackPlayer).1 = c) := by
  refine ⟨fun trackPlayer => ?_, fun c trackPlayer hin => ?_, fun c trackPlayer hlock => ?_⟩
  · simp only [CAMERA.inside, CAMERA.new]
    split_ifs <;> omega
  · obtain ⟨hl, hr, ht, hb⟩ := hin
    cases hlock : trackPlayer.cameraLock with
    | true =>
      simp only [CAMERA.Track, hlock, if_true]
      exact ⟨hl, hr, ht, hb⟩
    | false =>
      simp only [CAMERA.Track, hlock, Bool.false_eq_true, if_false, CAMERA.inside]
      have hy := trackVertical_inside SCREEN_HEIGHT gLevel c trackPlayer hH ht hb
      exact ⟨(trackHorizontal_inside SCREEN_WIDTH gLevel c _ hW hl hr).1,
        (trackHorizontal_inside SCREEN_WIDTH gLevel c _ hW hl hr).2, hy.1, hy.2⟩
  · unfold CAMERA.Track
    simp only [hlock, if_true]

/-- Witness of C21: a 426x240 screen in the level from (0, 0) to (1000, 500); a
player at (900, 20) puts the camera at (574, 0), and a Track call for the
player at (100, 400) moves it by at most 16 pixels, to (558, 16). -/
theorem CAMERA_stays_inside_witness :
    (CAMERA.new 426 240 ⟨0, 1000, 0, 500⟩
        ⟨⟨900⟩, ⟨20⟩, false, 0, 0, fun _ => ⟨0, 0⟩, ⟨false, false⟩, 0⟩).inside
      426 240 ⟨0, 1000, 0, 500⟩ ∧
    (CAMERA.Track 426 240 64 ⟨0, 1000, 0, 500⟩ ⟨574, 0, 0, 0⟩
        ⟨⟨100⟩, ⟨400⟩, false, 0, 0, fun _ => ⟨0, 0⟩, ⟨false, false⟩, 0x900⟩).1.inside
      426 240 ⟨0, 1000, 0, 500⟩ ∧
    (CAMERA.Track 426 240 64 ⟨0, 1000, 0, 500⟩ ⟨574, 0, 0, 0⟩
        ⟨⟨100⟩, ⟨400⟩, false, 0, 0, fun _ => ⟨0, 0⟩, ⟨false, false⟩, 0x900⟩).1
      = ⟨558, 16, 0, 0⟩ :=
  have h := CAMERA_stays_inside 426 240 64 ⟨0, 1000, 0, 500⟩ (by decide) (by decide)
  ⟨h.1 _, h.2.1 ⟨574, 0, 0, 0⟩ _ (by decide), by decide⟩

/-! ### Axis reading -/

/-- GetAxisState never sets down, left or up: whatever the axis position, for
an angle function whose results lie between -4 and 4, as those of atan2 do
(between -pi and pi), the three flags keep the value the local started with.
The tests for them compare the angle with 0x4000, 0x8000 and -0x4000. -/
theorem GetAxisState_sets_right_only (atan2 : Int → Int → ℚ) (state : CONTROLMASK)
    (chkAxisX chkAxisY : Int)
    (hrange : ∀ y x, -4 ≤ atan2 y x ∧ atan2 y x ≤ 4) :
    (GetAxisState atan2 state chkAxisX chkAxisY).down = state.down ∧
    (GetAxisState atan2 state chkAxisX chkAxisY).left = state.left ∧
    (GetAxisState atan2 state chkAxisX chkAxisY).up = state.up := by
  obtain ⟨hlo, hhi⟩ := hrange chkAxisY chkAxisX
  have hdown : ¬ (atan2 chkAxisY chkAxisX ≥ 0x4000 - DIRRAD ∧
      atan2 chkAxisY chkAxisX ≤ 0x4000 + DIRRAD) := by
    unfold DIRRAD; intro h; norm_num at h; linarith [h.1]
  have hleft : ¬ (atan2 chkAxisY chkAxisX ≥ 0x8000 - DIRRAD ∨
      atan2 chkAxisY chkAxisX ≤ -0x8000 + DIRRAD) := by
    unfold DIRRAD; intro h; norm_num at h
    rcases h with h | h <;> linarith
  have hup : ¬ (atan2 chkAxisY chkAxisX ≥ -0x4000 - DIRRAD ∧
      atan2 chkAxisY chkAxisX ≤ -0x4000 + DIRRAD) := by
    unfold DIRRAD; intro h; norm_num at h; linarith [h.2]
  unfold GetAxisState
  simp only [hdown, hleft, hup, if_false]
  split_ifs <;> exact ⟨rfl, rfl, rfl⟩

/-- GetAxisState sets right for a position straight to the right outside the
deadzone, where atan2 gives the angle 0 (as it does for every x > 0). -/
theorem GetAxisState_right (atan2 : Int → Int → ℚ) (state : CONTROLMASK) (chkAxisX : Int)
    (hzero : atan2 0 chkAxisX = 0)
    (hdead : chkAxisX * chkAxisX ≥ AXIS_DEADZONE * AXIS_DEADZONE) :
    (GetAxisState atan2 state chkAxisX 0).right = true := by
  have hnot : ¬ chkAxisX * chkAxisX + 0 * 0 < AXIS_DEADZONE * AXIS_DEADZONE := by
    simp only [mul_zero, add_zero, not_lt]; exact hdead
  have hright : (0 : ℚ) ≥ -DIRRAD ∧ (0 : ℚ) ≤ DIRRAD := by
    unfold DIRRAD; constructor <;> norm_num
  have hdown : ¬ ((0 : ℚ) ≥ 0x4000 - DIRRAD ∧ (0 : ℚ) ≤ 0x4000 + DIRRAD) := by
    unfold DIRRAD; norm_num
  have hleft : ¬ ((0 : ℚ) ≥ 0x8000 - DIRRAD ∨ (0 : ℚ) ≤ -0x8000 + DIRRAD) := by
    unfold DIRRAD; norm_num
  have hup : ¬ ((0 : ℚ) ≥ -0x4000 - DIRRAD ∧ (0 : ℚ) ≤ -0x4000 + DIRRAD) := by
    unfold DIRRAD; norm_num
  unfold GetAxisState
  simp only [hnot, if_false, hzero, hright, hdown, hleft, hup, and_self, if_true]

/-- The stand-in for atan2 on the axes stays between -4 and 4. -/
theorem atan2OnAxes_range (y x : Int) : -4 ≤ atan2OnAxes y x ∧ atan2OnAxes y x ≤ 4 := by
  unfold atan2OnAxes
  split_ifs <;> constructor <;> norm_num

/-- C22, the runs that depart from it: with the stick fully down (0, 32767),
fully left (-32767, 0) or fully up (0, -32767), all outside the deadzone, and
a control mask that starts all false, the state returned has down, left and up
not set; with the stick fully right (32767, 0) it has right set. The claim
requires down, left and up to be set in the first three runs. -/
theorem GetAxisState_misses_down_left_up :
    (0 : Int) * 0 + 32767 * 32767 ≥ AXIS_DEADZONE * AXIS_DEADZONE ∧
    (GetAxisState atan2OnAxes ⟨false, false, false, false, false, false, false, false⟩
      0 32767).down = false ∧
    (GetAxisState atan2OnAxes ⟨false, false, false, false, false, false, false, false⟩
      (-32767) 0).left = false ∧
    (GetAxisState atan2OnAxes ⟨false, false, false, false, false, false, false, false⟩
      0 (-32767)).up = false ∧
    (GetAxisState atan2OnAxes ⟨false, false, false, false, false, false, false, false⟩
      32767 0).right = true :=
  ⟨by decide,
   (GetAxisState_sets_right_only atan2OnAxes _ 0 32767 atan2OnAxes_range).1,
   (GetAxisState_sets_right_only atan2OnAxes _ (-32767) 0 atan2OnAxes_range).2.1,
   (GetAxisState_sets_right_only atan2OnAxes _ 0 (-32767) atan2OnAxes_range).2.2,
   GetAxisState_right atan2OnAxes _ 32767 (by simp [atan2OnAxes]) (by decide)⟩

/-- The analogue stick can hold right only: merging the axis state into the
held buttons, as Update does, changes none of left, down and up. -/
theorem applyAxisState_GetAxisState (atan2 : Int → Int → ℚ) (held : CONTROLMASK)
    (chkAxisX chkAxisY : Int) (hrange : ∀ y x, -4 ≤ atan2 y x ∧ atan2 y x ≤ 4) :
    (applyAxisState held (GetAxisState atan2
      ⟨false, false, false, false, false, false, false, false⟩ chkAxisX chkAxisY)).left
        = held.left ∧
    (applyAxisState held (GetAxisState atan2
      ⟨false, false, false, false, false, false, false, false⟩ chkAxisX chkAxisY)).down
        = held.down ∧
    (applyAxisState held (GetAxisState atan2
      ⟨false, false, false, false, false, false, false, false⟩ chkAxisX chkAxisY)).up
        = held.up := by
  have h := GetAxisState_sets_right_only atan2
    ⟨false, false, false, false, false, false, false, false⟩ chkAxisX chkAxisY hrange
  have hdown : (GetAxisState atan2 ⟨false, false, false, false, false, false, false, false⟩
      chkAxisX chkAxisY).down = false := h.1
  have hleft : (GetAxisState atan2 ⟨false, false, false, false, false, false, false, false⟩
      chkAxisX chkAxisY).left = false := h.2.1
  have hup : (GetAxisState atan2 ⟨false, false, false, false, false, false, false, false⟩
      chkAxisX chkAxisY).up = false := h.2.2
  unfold applyAxisState
  simp only [hdown, hleft, hup, Bool.false_eq_true, if_false]
  split_ifs <;> exact ⟨rfl, rfl, rfl⟩

/-- The flags down, left and up are whatever the local started with: with a
mask that starts with up set, the state returned for the stick fully down has
up set. -/
theorem GetAxisState_sets_right_only_example :
    (GetAxisState atan2OnAxes ⟨false, false, false, false, false, false, false, true⟩
      0 32767).up = true :=
  (GetAxisState_sets_right_only atan2OnAxes _ 0 32767 atan2OnAxes_range).2.2

end CuckySonic
